import Mathlib

/-!
# Verification of the multi-cloud notebook migration scripts

Shallow embedding of the two Python modules of this repository,
`user_creation_adding_notebooks.py` and `multicloud_git.py`, together with
proofs about their orchestration, ordering and error-handling behaviour.

Modelling conventions:

* Python values appearing in JSON payloads are modelled by `JVal`;
  dictionaries are association lists with Python dict semantics
  (first matching key wins on lookup; assignment keeps the original
  position of an existing key and appends otherwise).
* Every HTTP exchange is modelled by a `World`, a bundle of response
  functions keyed on the arguments of the request.  A response is either
  `HttpResp.failure` — a transport error or a non-2xx status, i.e. the
  cases in which `requests.get/post/patch` or `raise_for_status` raise a
  `requests.exceptions.RequestException` — or `HttpResp.success body`,
  where `body = none` models a 2xx response whose body is not JSON
  (`response.json()` then raises `requests.exceptions.JSONDecodeError`,
  which is a subclass of `RequestException` and is therefore caught by the
  scripts' `except` clauses).
* Each modelled operation returns the list of HTTP requests it issued
  (its observable trace) together with `Except PyErr α`: `.ok` is a normal
  Python return, `.error e` is a Python exception escaping the function.
  Only `RequestException`s are caught by the scripts, so any other
  exception kind (`KeyError`, `AttributeError`, `binascii.Error`, ...)
  propagates as `.error`.
* `base64.b64decode` / `b64encode` and UTF-8 encoding/decoding are
  implemented concretely over byte lists (bytes are `Nat < 256`).  The
  decoder accepts canonical base64 (padding only at the very end); the
  lenient discarding of foreign characters that CPython performs is not
  modelled — every input exercised here is either canonical or rejected
  by CPython as well.
* `os.getenv` results are `Option String`; interpolating a missing value
  into an f-string yields the Python rendering `"None"` (`pyStr`).
-/

/-- Kinds of Python exceptions relevant to the scripts.  `requestException`
stands for `requests.exceptions.RequestException` and all its subclasses
(including `JSONDecodeError`); it is the only kind the scripts catch. -/
inductive PyErr where
  | requestException
  | attributeError
  | keyError
  | typeError
  | binasciiError
  | unicodeDecodeError
  | recursionError
deriving DecidableEq

/-- JSON-ish Python values (dicts as association lists). -/
inductive JVal where
  | jnull
  | jbool (b : Bool)
  | jnum (n : Int)
  | jstr (s : String)
  | jarr (xs : List JVal)
  | jobj (fields : List (String × JVal))

/-- Boolean equality on `JVal` (the derive handler does not support this
nested inductive). -/
def JVal.beq : JVal → JVal → Bool
  | .jnull, .jnull => true
  | .jbool a, .jbool b => a == b
  | .jnum a, .jnum b => a == b
  | .jstr a, .jstr b => a == b
  | .jarr [], .jarr [] => true
  | .jarr (x :: xs), .jarr (y :: ys) => JVal.beq x y && JVal.beq (.jarr xs) (.jarr ys)
  | .jobj [], .jobj [] => true
  | .jobj ((k, v) :: fs), .jobj ((k2, v2) :: gs) =>
      k == k2 && JVal.beq v v2 && JVal.beq (.jobj fs) (.jobj gs)
  | _, _ => false

/-- Python `==` between a JSON value and a string literal (the only
shape of cross-type comparison the scripts perform, e.g.
`obj["object_type"] == "NOTEBOOK"`); non-strings compare unequal. -/
def JVal.isStr (v : JVal) (s : String) : Bool :=
  match v with
  | .jstr s2 => s2 == s
  | _ => false

/-- Python truthiness of a `JVal` (`None`, `False`, `0`, `""`, `[]`, `{}`
are falsy). -/
def pyTruthy : JVal → Bool
  | .jnull => false
  | .jbool b => b
  | .jnum n => n != 0
  | .jstr s => s != ""
  | .jarr xs => !xs.isEmpty
  | .jobj fs => !fs.isEmpty

/-- First-match association-list lookup (Python dict keys are unique, so
this is dict indexing). -/
def assocGet : List (String × JVal) → String → Option JVal
  | [], _ => none
  | (k, v) :: fs, key => if k = key then some v else assocGet fs key

/-- `d.get(key, default)`: raises `AttributeError` when `d` is not a
dict. -/
def jGetD : JVal → String → JVal → Except PyErr JVal
  | .jobj fs, k, d => .ok ((assocGet fs k).getD d)
  | _, _, _ => .error .attributeError

/-- `d[key]`: `KeyError` on a missing key, `TypeError` when `d` does not
support indexing by a string. -/
def jGetKey : JVal → String → Except PyErr JVal
  | .jobj fs, k =>
    match assocGet fs k with
    | some v => .ok v
    | none => .error .keyError
  | _, _ => .error .typeError

/-- `d.pop(key, None)`: removes the key from a dict (`AttributeError` on a
non-dict).  The unused default return value is dropped. -/
def popField : JVal → String → Except PyErr JVal
  | .jobj fs, k => .ok (.jobj (fs.filter (fun kv => kv.1 ≠ k)))
  | _, _ => .error .attributeError

/-- `for x in v`: the scripts only ever iterate JSON arrays; iterating any
other value either raises `TypeError` directly or makes the first loop
body operation raise, so non-arrays are modelled as an escaping
exception. -/
def iterList : JVal → Except PyErr (List JVal)
  | .jarr xs => .ok xs
  | _ => .error .typeError

/-- Python dict assignment `d[k] = v`: replaces the value in place if the
key exists, appends otherwise (insertion order preserved). -/
def dictInsert (d : List (JVal × JVal)) (k v : JVal) : List (JVal × JVal) :=
  if (d.map Prod.fst).any (fun k2 => JVal.beq k2 k) then
    d.map (fun p => if JVal.beq p.1 k then (k, v) else p)
  else
    d ++ [(k, v)]

/-- Result of one HTTP request, as observed through `requests`:
`failure` covers transport errors and non-2xx statuses (anything that
makes the call or `raise_for_status` raise a `RequestException`);
`success none` is a 2xx response with a non-JSON body. -/
inductive HttpResp where
  | failure
  | success (body : Option JVal)

/-- f-string rendering of an `os.getenv` result (`None` prints as
`"None"`). -/
def pyStr : Option String → String
  | none => "None"
  | some s => s

/-- `str.upper()` over the string's characters (the config names are
ASCII, where Python's `str.upper` and `Char.toUpper` agree). -/
def pyUpper (s : String) : String := String.mk (s.data.map Char.toUpper)

/-! ## Base64 (canonical), as used via `base64.b64encode/b64decode` -/

/-- The base64 alphabet character of a 6-bit index. -/
def b64CharOf (n : Nat) : Char :=
  if n < 26 then Char.ofNat (65 + n)
  else if n < 52 then Char.ofNat (97 + (n - 26))
  else if n < 62 then Char.ofNat (48 + (n - 52))
  else if n = 62 then '+' else '/'

/-- Index of a character in the base64 alphabet. -/
def b64IndexOf (c : Char) : Option Nat :=
  let n := c.toNat
  if 65 ≤ n ∧ n ≤ 90 then some (n - 65)
  else if 97 ≤ n ∧ n ≤ 122 then some (26 + (n - 97))
  else if 48 ≤ n ∧ n ≤ 57 then some (52 + (n - 48))
  else if n = 43 then some 62
  else if n = 47 then some 63
  else none

/-- `base64.b64encode` on a byte list, producing the character stream. -/
def b64encodeBytes : List Nat → List Char
  | [] => []
  | [a] => [b64CharOf (a / 4), b64CharOf (a % 4 * 16), '=', '=']
  | [a, b] => [b64CharOf (a / 4), b64CharOf (a % 4 * 16 + b / 16),
               b64CharOf (b % 16 * 4), '=']
  | a :: b :: c :: rest =>
      b64CharOf (a / 4) :: b64CharOf (a % 4 * 16 + b / 16) ::
      b64CharOf (b % 16 * 4 + c / 64) :: b64CharOf (c % 64) ::
      b64encodeBytes rest

/-- `base64.b64decode` on canonical input; `binascii.Error` on anything
whose length is not a multiple of four or whose padding is misplaced. -/
def b64decodeBytes : List Char → Except PyErr (List Nat)
  | [] => .ok []
  | c1 :: c2 :: c3 :: c4 :: rest =>
    match b64IndexOf c1, b64IndexOf c2 with
    | some i1, some i2 =>
      if c3 = '=' then
        if c4 = '=' ∧ rest = [] then .ok [i1 * 4 + i2 / 16]
        else .error .binasciiError
      else
        match b64IndexOf c3 with
        | some i3 =>
          if c4 = '=' then
            if rest = [] then .ok [i1 * 4 + i2 / 16, i2 % 16 * 16 + i3 / 4]
            else .error .binasciiError
          else
            match b64IndexOf c4 with
            | some i4 =>
              match b64decodeBytes rest with
              | .ok bs => .ok ((i1 * 4 + i2 / 16) :: (i2 % 16 * 16 + i3 / 4) ::
                               (i3 % 4 * 64 + i4) :: bs)
              | .error e => .error e
            | none => .error .binasciiError
        | none => .error .binasciiError
    | _, _ => .error .binasciiError
  | _ => .error .binasciiError

theorem b64IndexOf_b64CharOf : ∀ n : Fin 64, b64IndexOf (b64CharOf n.val) = some n.val := by
  decide

theorem b64CharOf_ne_eq : ∀ n : Fin 64, b64CharOf n.val ≠ '=' := by
  decide

theorem b64IndexOf_lt (n : Nat) (h : n < 64) : b64IndexOf (b64CharOf n) = some n :=
  b64IndexOf_b64CharOf ⟨n, h⟩

theorem b64CharOf_ne (n : Nat) (h : n < 64) : b64CharOf n ≠ '=' :=
  b64CharOf_ne_eq ⟨n, h⟩

/-- Decoding inverts encoding on byte lists. -/
theorem b64decode_b64encode : ∀ bs : List Nat, (∀ x ∈ bs, x < 256) →
    b64decodeBytes (b64encodeBytes bs) = .ok bs := by
  intro bs
  induction bs using b64encodeBytes.induct with
  | case1 => intro _; simp [b64encodeBytes, b64decodeBytes]
  | case2 a =>
    intro h
    have ha : a < 256 := h a (by simp)
    have h1 : a / 4 < 64 := by omega
    have h2 : a % 4 * 16 < 64 := by omega
    simp [b64encodeBytes, b64decodeBytes, b64IndexOf_lt _ h1, b64IndexOf_lt _ h2]
    omega
  | case3 a b =>
    intro h
    have ha : a < 256 := h a (by simp)
    have hb : b < 256 := h b (by simp)
    have h1 : a / 4 < 64 := by omega
    have h2 : a % 4 * 16 + b / 16 < 64 := by omega
    have h3 : b % 16 * 4 < 64 := by omega
    have hne3 := b64CharOf_ne _ h3
    simp [b64encodeBytes, b64decodeBytes, b64IndexOf_lt _ h1, b64IndexOf_lt _ h2,
      b64IndexOf_lt _ h3, hne3]
    omega
  | case4 a b c rest ih =>
    intro h
    have ha : a < 256 := h a (by simp)
    have hb : b < 256 := h b (by simp)
    have hc : c < 256 := h c (by simp)
    have h1 : a / 4 < 64 := by omega
    have h2 : a % 4 * 16 + b / 16 < 64 := by omega
    have h3 : b % 16 * 4 + c / 64 < 64 := by omega
    have h4 : c % 64 < 64 := by omega
    have hrest : ∀ x ∈ rest, x < 256 := fun x hx => h x (by simp [hx])
    have hne3 := b64CharOf_ne _ h3
    have hne4 := b64CharOf_ne _ h4
    simp [b64encodeBytes, b64decodeBytes, b64IndexOf_lt _ h1, b64IndexOf_lt _ h2,
      b64IndexOf_lt _ h3, b64IndexOf_lt _ h4, hne3, hne4, ih hrest]
    omega

/-! ## UTF-8, as used via `str.encode("utf-8")` / `bytes.decode("utf-8")` -/

/-- UTF-8 encoding of one Unicode scalar value. -/
def utf8EncodeChar (n : Nat) : List Nat :=
  if n < 0x80 then [n]
  else if n < 0x800 then [0xC0 + n / 64, 0x80 + n % 64]
  else if n < 0x10000 then [0xE0 + n / 4096, 0x80 + n / 64 % 64, 0x80 + n % 64]
  else [0xF0 + n / 262144, 0x80 + n / 4096 % 64, 0x80 + n / 64 % 64, 0x80 + n % 64]

/-- `str.encode("utf-8")` over the character list of a string. -/
def utf8Encode : List Char → List Nat
  | [] => []
  | c :: cs => utf8EncodeChar c.toNat ++ utf8Encode cs

/-- Prefix a scalar value onto the result of decoding the remaining
bytes. -/
def consCode (x : Nat) : Except PyErr (List Nat) → Except PyErr (List Nat)
  | .ok ns => .ok (x :: ns)
  | .error e => .error e

/-- Strict UTF-8 decoding to scalar values, as a byte-at-a-time machine.
The state is `none` between characters and `some (acc, need, lo, hi)`
inside a multi-byte sequence: `acc` is the value accumulated so far,
`need` the number of continuation bytes still expected, and the next byte
must lie in `[lo, hi)`.  Truncated sequences, stray continuation bytes,
overlong forms, surrogates and values beyond U+10FFFF are rejected —
exactly the inputs on which `bytes.decode("utf-8")` raises a
`UnicodeDecodeError`. -/
def utf8Run : Option (Nat × Nat × Nat × Nat) → List Nat → Except PyErr (List Nat)
  | none, [] => .ok []
  | some _, [] => .error .unicodeDecodeError
  | none, b :: rest =>
    if b < 0x80 then consCode b (utf8Run none rest)
    else if b < 0xC2 then .error .unicodeDecodeError
    else if b < 0xE0 then utf8Run (some (b - 0xC0, 1, 0x80, 0xC0)) rest
    else if b < 0xF0 then
      utf8Run (some (b - 0xE0, 2, if b = 0xE0 then 0xA0 else 0x80,
                     if b = 0xED then 0xA0 else 0xC0)) rest
    else if b < 0xF5 then
      utf8Run (some (b - 0xF0, 3, if b = 0xF0 then 0x90 else 0x80,
                     if b = 0xF4 then 0x90 else 0xC0)) rest
    else .error .unicodeDecodeError
  | some (acc, need, lo, hi), b :: rest =>
    if lo ≤ b ∧ b < hi then
      if need = 1 then consCode (acc * 64 + (b - 0x80)) (utf8Run none rest)
      else utf8Run (some (acc * 64 + (b - 0x80), need - 1, 0x80, 0xC0)) rest
    else .error .unicodeDecodeError

/-- `bytes.decode("utf-8")` on a byte list, strict mode. -/
def utf8DecodeCodes (bs : List Nat) : Except PyErr (List Nat) :=
  utf8Run none bs

/-- The valid-scalar-value bounds of a `Char`, in `Nat` form. -/
theorem char_toNat_valid (c : Char) :
    c.toNat < 55296 ∨ (57343 < c.toNat ∧ c.toNat < 1114112) := c.valid

/-- Decoding a UTF-8-encoded valid scalar value off the front of a byte
stream recovers it. -/
theorem utf8Run_encode_valid (n : Nat)
    (hv : n < 55296 ∨ (57343 < n ∧ n < 1114112)) (rest : List Nat) :
    utf8Run none (utf8EncodeChar n ++ rest) = consCode n (utf8Run none rest) := by
  by_cases h1 : n < 0x80
  · rw [utf8EncodeChar, if_pos h1, List.cons_append, List.nil_append, utf8Run, if_pos h1]
  · by_cases h2 : n < 0x800
    · have e1 : ¬(0xC0 + n / 64 < 0x80) := by omega
      have e2 : ¬(0xC0 + n / 64 < 0xC2) := by omega
      have e3 : 0xC0 + n / 64 < 0xE0 := by omega
      have e4 : 0x80 ≤ 0x80 + n % 64 ∧ 0x80 + n % 64 < 0xC0 := by omega
      rw [utf8EncodeChar, if_neg h1, if_pos h2, List.cons_append, List.cons_append,
        List.nil_append, utf8Run, if_neg e1, if_neg e2, if_pos e3, utf8Run,
        if_pos e4, if_pos rfl]
      have hx : (0xC0 + n / 64 - 0xC0) * 64 + (0x80 + n % 64 - 0x80) = n := by omega
      rw [hx]
    · by_cases h3 : n < 0x10000
      · have e1 : ¬(0xE0 + n / 4096 < 0x80) := by omega
        have e2 : ¬(0xE0 + n / 4096 < 0xC2) := by omega
        have e3 : ¬(0xE0 + n / 4096 < 0xE0) := by omega
        have e4 : 0xE0 + n / 4096 < 0xF0 := by omega
        have e5 : (if 0xE0 + n / 4096 = 0xE0 then 0xA0 else 0x80) ≤ 0x80 + n / 64 % 64 ∧
            0x80 + n / 64 % 64 < (if 0xE0 + n / 4096 = 0xED then 0xA0 else 0xC0) := by
          constructor
          · split
            · omega
            · omega
          · split
            · rcases hv with hv | hv <;> omega
            · omega
        have e6 : 0x80 ≤ 0x80 + n % 64 ∧ 0x80 + n % 64 < 0xC0 := by omega
        have e7 : ¬((2 : Nat) = 1) := by omega
        rw [utf8EncodeChar, if_neg h1, if_neg h2, if_pos h3, List.cons_append,
          List.cons_append, List.cons_append, List.nil_append, utf8Run, if_neg e1,
          if_neg e2, if_neg e3, if_pos e4, utf8Run, if_pos e5, if_neg e7, utf8Run,
          if_pos e6, if_pos rfl]
        have hx : ((0xE0 + n / 4096 - 0xE0) * 64 + (0x80 + n / 64 % 64 - 0x80)) * 64 +
            (0x80 + n % 64 - 0x80) = n := by omega
        rw [hx]
      · have hn : n < 1114112 := by omega
        have e1 : ¬(0xF0 + n / 262144 < 0x80) := by omega
        have e2 : ¬(0xF0 + n / 262144 < 0xC2) := by omega
        have e3 : ¬(0xF0 + n / 262144 < 0xE0) := by omega
        have e4 : ¬(0xF0 + n / 262144 < 0xF0) := by omega
        have e5 : 0xF0 + n / 262144 < 0xF5 := by omega
        have e6 : (if 0xF0 + n / 262144 = 0xF0 then 0x90 else 0x80) ≤ 0x80 + n / 4096 % 64 ∧
            0x80 + n / 4096 % 64 < (if 0xF0 + n / 262144 = 0xF4 then 0x90 else 0xC0) := by
          constructor
          · split
            · omega
            · omega
          · split
            · omega
            · omega
        have e7 : 0x80 ≤ 0x80 + n / 64 % 64 ∧ 0x80 + n / 64 % 64 < 0xC0 := by omega
        have e8 : 0x80 ≤ 0x80 + n % 64 ∧ 0x80 + n % 64 < 0xC0 := by omega
        have e9 : ¬((3 : Nat) = 1) := by omega
        have e10 : ¬((2 : Nat) = 1) := by omega
        rw [utf8EncodeChar, if_neg h1, if_neg h2, if_neg h3, List.cons_append,
          List.cons_append, List.cons_append, List.cons_append, List.nil_append,
          utf8Run, if_neg e1, if_neg e2, if_neg e3, if_neg e4, if_pos e5, utf8Run,
          if_pos e6, if_neg e9, utf8Run, if_pos e7, if_neg e10, utf8Run, if_pos e8,
          if_pos rfl]
        have hx : (((0xF0 + n / 262144 - 0xF0) * 64 + (0x80 + n / 4096 % 64 - 0x80)) * 64 +
            (0x80 + n / 64 % 64 - 0x80)) * 64 + (0x80 + n % 64 - 0x80) = n := by omega
        rw [hx]

/-- Specialisation of `utf8Run_encode_valid` to the scalar value of a
`Char`. -/
theorem utf8Run_encodeChar (c : Char) (rest : List Nat) :
    utf8Run none (utf8EncodeChar c.toNat ++ rest) = consCode c.toNat (utf8Run none rest) :=
  utf8Run_encode_valid c.toNat (char_toNat_valid c) rest

/-- Decoding inverts encoding on character lists. -/
theorem utf8DecodeCodes_utf8Encode : ∀ cs : List Char,
    utf8DecodeCodes (utf8Encode cs) = .ok (cs.map Char.toNat) := by
  intro cs
  induction cs with
  | nil => rfl
  | cons c cs ih =>
      simp only [utf8Encode, utf8DecodeCodes] at ih ⊢
      rw [utf8Run_encodeChar, ih, consCode, List.map_cons]

/-! ## Wire encoding of notebook content -/

/-- `base64.b64encode(content.encode("utf-8")).decode("utf-8")` — the wire
form of notebook content built by `import_notebook`. -/
def encodeContent (content : String) : String :=
  String.mk (b64encodeBytes (utf8Encode content.data))

/-- `base64.b64decode(s).decode("utf-8")` — the decoding performed by
`export_notebook` and `fetch_notebook_from_github`. -/
def decodeContent (s : String) : Except PyErr String :=
  match b64decodeBytes s.data with
  | .error e => .error e
  | .ok bs =>
    match utf8DecodeCodes bs with
    | .error e => .error e
    | .ok ns => .ok (String.mk (ns.map Char.ofNat))

theorem utf8EncodeChar_lt_256 (n : Nat) (hn : n < 1114112) :
    ∀ x ∈ utf8EncodeChar n, x < 256 := by
  unfold utf8EncodeChar
  split_ifs <;> simp <;> omega

theorem utf8Encode_lt_256 : ∀ cs : List Char, ∀ x ∈ utf8Encode cs, x < 256 := by
  intro cs
  induction cs with
  | nil => simp [utf8Encode]
  | cons c cs ih =>
      intro x hx
      rw [utf8Encode, List.mem_append] at hx
      rcases hx with hx | hx
      · have hc : c.toNat < 1114112 := by
          rcases char_toNat_valid c with h | h <;> omega
        exact utf8EncodeChar_lt_256 c.toNat hc x hx
      · exact ih x hx

/-- The wire round-trip: decoding an encoded content string yields the
original content. -/
theorem decodeContent_encodeContent (content : String) :
    decodeContent (encodeContent content) = .ok content := by
  have hd : (encodeContent content).data = b64encodeBytes (utf8Encode content.data) := rfl
  rw [decodeContent, hd, b64decode_b64encode _ (utf8Encode_lt_256 content.data)]
  simp only [utf8DecodeCodes_utf8Encode, List.map_map, Function.comp_def, Char.ofNat_toNat,
    List.map_id', List.map_id_fun, id]

/-! ## The remote world and the observable request trace -/

/-- One HTTP request, as received by the remote side (the bearer token
travels in headers and is not part of the observable endpoint/body). -/
inductive Event where
  | getUsers (url : String)
  | postUser (url : String) (payload : JVal)
  | getList (url : String) (path : String)
  | getExport (url : String) (path : String)
  | postMkdir (url : String) (path : String)
  | postImport (url : String) (path : String) (content : String)
  | getGithub (owner : String) (repo : String) (path : String)
  | getStatus (url : String) (path : String)
  | getPerms (url : String) (kind : String) (objId : JVal)
  | patchPerms (url : String) (kind : String) (objId : JVal) (body : JVal)

/-- The remote systems: a response function per endpoint, keyed on the
request's distinguishing arguments. -/
structure World where
  usersResp : String → String → HttpResp
  createUserResp : String → String → JVal → HttpResp
  listResp : String → String → String → HttpResp
  exportResp : String → String → String → HttpResp
  mkdirResp : String → String → String → HttpResp
  importResp : String → String → String → String → HttpResp
  githubResp : String → String → String → String → HttpResp
  statusResp : String → String → String → HttpResp
  permsGetResp : String → String → String → JVal → HttpResp
  permsPatchResp : String → String → String → JVal → JVal → HttpResp

/-- One entry of a module-level `WORKSPACE_CONFIG`: a two-key dict whose
values are `os.getenv` results. -/
structure WsConfig where
  url : Option String
  token : Option String

/-- Dict lookup on a config table (`WORKSPACE_CONFIG.get(key, None)`). -/
def cfgLookup : List (String × WsConfig) → String → Option WsConfig
  | [], _ => none
  | (k, v) :: rest, key => if k = key then some v else cfgLookup rest key

/-- Python truthiness of an optional value (`None` is falsy, otherwise the
value's own truthiness). -/
def optTruthy : Option JVal → Bool
  | none => false
  | some v => pyTruthy v

/-- Python truthiness of an optional string (`None` and `""` are falsy). -/
def optStrTruthy : Option String → Bool
  | none => false
  | some s => s != ""

/-! ## `user_creation_adding_notebooks.py` -/

namespace UserCreation

/-- The environment variables read at import time. -/
structure Env where
  STAGING_WORKSPACE_URL : Option String
  STAGING_ACCESS_TOKEN : Option String
  PREPROD_WORKSPACE_URL : Option String
  PREPROD_ACCESS_TOKEN : Option String

/-- The module-level `WORKSPACE_CONFIG` dictionary. -/
def WORKSPACE_CONFIG (e : Env) : List (String × WsConfig) :=
  [("STAGING", ⟨e.STAGING_WORKSPACE_URL, e.STAGING_ACCESS_TOKEN⟩),
   ("PREPROD", ⟨e.PREPROD_WORKSPACE_URL, e.PREPROD_ACCESS_TOKEN⟩)]

/-- `get_workspace_config`: `WORKSPACE_CONFIG.get(name.upper(), None)`.
The error message on a miss is console-only.  Note that a present entry is
a two-key dict and therefore always truthy, even when both values are
`None`, so the callers' `if not config` test is exactly an `isNone`
test. -/
def get_workspace_config (e : Env) (workspace_name : String) : Option WsConfig :=
  cfgLookup (WORKSPACE_CONFIG e) (pyUpper workspace_name)

/-- `get_users`: GET the SCIM Users endpoint; any `RequestException`
(transport, non-2xx, non-JSON body) is caught and yields `[]`; otherwise
returns `response.json().get("Resources", [])` (an `AttributeError` on a
non-dict JSON body escapes the function). -/
def get_users (w : World) (workspace_url access_token : String) :
    List Event × Except PyErr JVal :=
  ([Event.getUsers workspace_url],
   match w.usersResp workspace_url access_token with
   | .failure => .ok (.jarr [])
   | .success none => .ok (.jarr [])
   | .success (some body) => jGetD body "Resources" (.jarr []))

/-- `create_user`: POST the user record; returns `True` on 2xx and `False`
on a caught `RequestException`.  Both branches interpolate
`user["userName"]` into a log line, so a record without that key raises a
`KeyError` after the request was already sent. -/
def create_user (w : World) (workspace_url access_token : String) (user : JVal) :
    List Event × Except PyErr Bool :=
  ([Event.postUser workspace_url user],
   match w.createUserResp workspace_url access_token user with
   | .failure =>
     match jGetKey user "userName" with
     | .ok _ => .ok false
     | .error e => .error e
   | .success _ =>
     match jGetKey user "userName" with
     | .ok _ => .ok true
     | .error e => .error e)

/-- Python `set.add` on the directory set (represented as a duplicate-free
list; the set is only ever sorted or tested for membership, so the
representation order is unobservable). -/
def setAdd (s : List String) (x : String) : List String :=
  if x ∈ s then s else s ++ [x]

/-- Python `set.update`. -/
def setUnion (s : List String) : List String → List String
  | [] => s
  | x :: xs => setUnion (setAdd s x) xs

/-- Extract the string at `obj[key]`.  The scripts pass these values to
`requests` params and to `sorted`, where a non-string would raise; a
non-string path is modelled as an immediate `TypeError`. -/
def jGetStrKey (obj : JVal) (key : String) : Except PyErr String :=
  match jGetKey obj key with
  | .error e => .error e
  | .ok (.jstr s) => .ok s
  | .ok _ => .error .typeError

/-- The `for obj in objects` loop of `list_notebooks`, accumulating
notebook paths and the directory set; `recurse` is the recursive call for
subdirectories. -/
def listLoop (recurse : String → List Event × Except PyErr (List String × List String)) :
    List JVal → List String → List String →
    List Event × Except PyErr (List String × List String)
  | [], notebooks, directories => ([], .ok (notebooks, directories))
  | obj :: objs, notebooks, directories =>
    match jGetKey obj "object_type" with
    | .error e => ([], .error e)
    | .ok t =>
      if JVal.isStr t "NOTEBOOK" then
        match jGetStrKey obj "path" with
        | .error e => ([], .error e)
        | .ok p => listLoop recurse objs (notebooks ++ [p]) directories
      else if JVal.isStr t "DIRECTORY" then
        match jGetStrKey obj "path" with
        | .error e => ([], .error e)
        | .ok p =>
          let sub := recurse p
          match sub.2 with
          | .error e => (sub.1, .error e)
          | .ok subres =>
            let rest := listLoop recurse objs (notebooks ++ subres.1)
                          (setUnion (setAdd directories p) subres.2)
            (sub.1 ++ rest.1, rest.2)
      else
        listLoop recurse objs notebooks directories

/-- `list_notebooks`: one GET per directory plus a recursive walk.  A
caught `RequestException` (transport / non-2xx / non-JSON body) yields
`([], set())` for that subtree.  The `fuel` argument models the Python
call-stack limit (`RecursionError` on exhaustion); the nested recursion
itself never raises a `RequestException`, so returning the loop's outcome
directly is exactly the Python control flow. -/
def list_notebooks (w : World) (workspace_url access_token : String) :
    Nat → String → List Event × Except PyErr (List String × List String)
  | 0, _ => ([], .error .recursionError)
  | fuel + 1, path =>
    let ev := [Event.getList workspace_url path]
    match w.listResp workspace_url access_token path with
    | .failure => (ev, .ok ([], []))
    | .success none => (ev, .ok ([], []))
    | .success (some body) =>
      match jGetD body "objects" (.jarr []) with
      | .error e => (ev, .error e)
      | .ok objsV =>
        match iterList objsV with
        | .error e => (ev, .error e)
        | .ok objs =>
          let res := listLoop (list_notebooks w workspace_url access_token fuel) objs [] []
          (ev ++ res.1, res.2)

/-- `export_notebook`: GET the export endpoint; a caught
`RequestException` yields `None`; otherwise the base64 `content` field
(defaulting to `""` when absent) is decoded — a malformed field makes
`base64.b64decode` or `bytes.decode` raise past the `except` clause, since
`binascii.Error` and `UnicodeDecodeError` are not `RequestException`s. -/
def export_notebook (w : World) (workspace_url access_token notebook_path : String) :
    List Event × Except PyErr (Option String) :=
  ([Event.getExport workspace_url notebook_path],
   match w.exportResp workspace_url access_token notebook_path with
   | .failure => .ok none
   | .success none => .ok none
   | .success (some body) =>
     match jGetD body "content" (.jstr "") with
     | .error e => .error e
     | .ok (.jstr s) =>
       match decodeContent s with
       | .error e => .error e
       | .ok text => .ok (some text)
     | .ok _ => .error .typeError)

/-- `create_directory`: POST mkdirs; both outcomes only print, so the
function always returns `None`. -/
def create_directory (w : World) (workspace_url access_token directory_path : String) :
    List Event × Except PyErr Unit :=
  ([Event.postMkdir workspace_url directory_path],
   match w.mkdirResp workspace_url access_token directory_path with
   | .failure => .ok ()
   | .success _ => .ok ())

/-- `import_notebook`: base64-encode the content, POST it with
overwrite-always semantics; `True` on 2xx, `False` on a caught
`RequestException`. -/
def import_notebook (w : World) (workspace_url access_token notebook_path content : String) :
    List Event × Except PyErr Bool :=
  ([Event.postImport workspace_url notebook_path (encodeContent content)],
   match w.importResp workspace_url access_token notebook_path (encodeContent content) with
   | .failure => .ok false
   | .success _ => .ok true)

/-- The user-transfer loop of `transfer_users_and_notebooks`: pop the
`id` field, create the user on the target, and on success record the name
in `user_name_map` (whose only observable effect is the potential
`KeyError` on a record without `userName`). -/
def userLoop (w : World) (url tok : String) : List JVal → List Event × Except PyErr Unit
  | [] => ([], .ok ())
  | user :: users =>
    match popField user "id" with
    | .error e => ([], .error e)
    | .ok user2 =>
      let r := create_user w url tok user2
      match r.2 with
      | .error e => (r.1, .error e)
      | .ok b =>
        match (if b then jGetKey user2 "userName" else .ok .jnull) with
        | .error e => (r.1, .error e)
        | .ok _ =>
          let rest := userLoop w url tok users
          (r.1 ++ rest.1, rest.2)

/-- The directory-creation loop (`for directory in sorted(directory_paths)`);
`create_directory` cannot raise, so this is pure trace. -/
def dirLoop (w : World) (url tok : String) : List String → List Event
  | [] => []
  | d :: ds => (create_directory w url tok d).1 ++ dirLoop w url tok ds

/-- The notebook-transfer loop: export each path from the source; a falsy
result (`None` or `""`) skips that notebook; otherwise import to the same
path on the target, ignoring the import's boolean outcome. -/
def nbLoop (w : World) (su st tu tt : String) : List String → List Event × Except PyErr Unit
  | [] => ([], .ok ())
  | p :: ps =>
    let e := export_notebook w su st p
    match e.2 with
    | .error err => (e.1, .error err)
    | .ok none =>
        let rest := nbLoop w su st tu tt ps
        (e.1 ++ rest.1, rest.2)
    | .ok (some content) =>
        if content = "" then
          let rest := nbLoop w su st tu tt ps
          (e.1 ++ rest.1, rest.2)
        else
          let i := import_notebook w tu tt p content
          let rest := nbLoop w su st tu tt ps
          (e.1 ++ i.1 ++ rest.1, rest.2)

/-- `transfer_users_and_notebooks`: resolve both configs (returning before
any HTTP call when a lookup misses), transfer users, list the source tree,
create the discovered directories in sorted order, then export/import each
discovered notebook. -/
def transfer_users_and_notebooks (w : World) (e : Env) (fuel : Nat)
    (source_workspace target_workspace : String) : List Event × Except PyErr Unit :=
  match get_workspace_config e source_workspace with
  | none => ([], .ok ())
  | some source_config =>
    match get_workspace_config e target_workspace with
    | none => ([], .ok ())
    | some target_config =>
      let su := pyStr source_config.url
      let st := pyStr source_config.token
      let tu := pyStr target_config.url
      let tt := pyStr target_config.token
      let gu := get_users w su st
      match gu.2 with
      | .error err => (gu.1, .error err)
      | .ok usersV =>
        match iterList usersV with
        | .error err => (gu.1, .error err)
        | .ok users =>
          let ul := userLoop w tu tt users
          match ul.2 with
          | .error err => (gu.1 ++ ul.1, .error err)
          | .ok _ =>
            let ln := list_notebooks w su st fuel "/"
            match ln.2 with
            | .error err => (gu.1 ++ ul.1 ++ ln.1, .error err)
            | .ok nbsdirs =>
              let dl := dirLoop w tu tt (List.insertionSort (· ≤ ·) nbsdirs.2)
              let nl := nbLoop w su st tu tt nbsdirs.1
              (gu.1 ++ ul.1 ++ ln.1 ++ dl ++ nl.1, nl.2)

end UserCreation

/-! ## `multicloud_git.py` -/

namespace MulticloudGit

/-- The environment variables read at import time. -/
structure Env where
  AWS_WORKSPACE_URL : Option String
  AWS_ACCESS_TOKEN : Option String
  AZURE_WORKSPACE_URL : Option String
  AZURE_ACCESS_TOKEN : Option String
  GCP_WORKSPACE_URL : Option String
  GCP_ACCESS_TOKEN : Option String
  GITHUB_TOKEN : Option String
  GITHUB_REPO_OWNER : Option String
  GITHUB_REPO_NAME : Option String

/-- The module-level `WORKSPACE_CONFIG` dictionary. -/
def WORKSPACE_CONFIG (e : Env) : List (String × WsConfig) :=
  [("AWS", ⟨e.AWS_WORKSPACE_URL, e.AWS_ACCESS_TOKEN⟩),
   ("AZURE", ⟨e.AZURE_WORKSPACE_URL, e.AZURE_ACCESS_TOKEN⟩),
   ("GCP", ⟨e.GCP_WORKSPACE_URL, e.GCP_ACCESS_TOKEN⟩)]

/-- `get_workspace_config`: `WORKSPACE_CONFIG.get(cloud_provider.upper(),
None)`. -/
def get_workspace_config (e : Env) (cloud_provider : String) : Option WsConfig :=
  cfgLookup (WORKSPACE_CONFIG e) (pyUpper cloud_provider)

/-- `fetch_notebook_from_github`: GET the contents endpoint; a caught
`RequestException` yields `None`; a missing or falsy `content` field is
reported as not-found and yields `None`; otherwise the base64 field is
decoded (malformed base64 / UTF-8 raising past the `except` clause). -/
def fetch_notebook_from_github (w : World)
    (repo_owner repo_name notebook_path github_token : String) :
    List Event × Except PyErr (Option String) :=
  ([Event.getGithub repo_owner repo_name notebook_path],
   match w.githubResp repo_owner repo_name notebook_path github_token with
   | .failure => .ok none
   | .success none => .ok none
   | .success (some body) =>
     match jGetD body "content" .jnull with
     | .error e => .error e
     | .ok content =>
       if pyTruthy content then
         match content with
         | .jstr s =>
           match decodeContent s with
           | .error e => .error e
           | .ok text => .ok (some text)
         | _ => .error .typeError
       else .ok none)

/-- `import_notebook` (this module's variant): build
`{workspace_dir}/{notebook_name}`, POST the base64-encoded content, and
return the notebook path on 2xx or `None` on a caught
`RequestException`. -/
def import_notebook (w : World)
    (workspace_url access_token content notebook_name workspace_dir : String) :
    List Event × Option String :=
  let notebook_path := workspace_dir ++ "/" ++ notebook_name
  ([Event.postImport workspace_url notebook_path (encodeContent content)],
   match w.importResp workspace_url access_token notebook_path (encodeContent content) with
   | .failure => none
   | .success _ => some notebook_path)

/-- `get_notebook_id`: GET the get-status endpoint and return
`response.json().get("object_id")` (`None` both on a caught
`RequestException` and on a missing field). -/
def get_notebook_id (w : World) (workspace_url access_token notebook_path : String) :
    List Event × Except PyErr JVal :=
  ([Event.getStatus workspace_url notebook_path],
   match w.statusResp workspace_url access_token notebook_path with
   | .failure => .ok .jnull
   | .success none => .ok .jnull
   | .success (some body) => jGetD body "object_id" .jnull)

/-- `get_object_status`: GET the get-status endpoint and return the parsed
body, or `None` on a caught `RequestException`. -/
def get_object_status (w : World) (workspace_url access_token path : String) :
    List Event × Option JVal :=
  ([Event.getStatus workspace_url path],
   match w.statusResp workspace_url access_token path with
   | .failure => none
   | .success none => none
   | .success (some body) => some body)

/-- The dict-building loop of `get_permissions`: keep entries whose
`user_name` and `permission_level` are both truthy, last write wins per
principal. -/
def permLoop : List JVal → List (JVal × JVal) → Except PyErr (List (JVal × JVal))
  | [], d => .ok d
  | p :: ps, d =>
    match jGetD p "user_name" .jnull with
    | .error e => .error e
    | .ok u =>
      match jGetD p "permission_level" .jnull with
      | .error e => .error e
      | .ok l =>
        if pyTruthy u && pyTruthy l then permLoop ps (dictInsert d u l)
        else permLoop ps d

/-- `get_permissions`: resolve the object's status (returning `None` when
it is falsy), pick the endpoint by object type (`None` with a logged skip
on an unsupported type), then GET the ACL and fold it into a
principal-to-level dict; a caught `RequestException` on the ACL GET yields
the empty dict `{}`. -/
def get_permissions (w : World) (workspace_url access_token path : String) :
    List Event × Except PyErr (Option (List (JVal × JVal))) :=
  let st := get_object_status w workspace_url access_token path
  match st.2 with
  | none => (st.1, .ok none)
  | some object_status =>
    if pyTruthy object_status = false then (st.1, .ok none)
    else
      match jGetD object_status "object_id" .jnull with
      | .error e => (st.1, .error e)
      | .ok object_id =>
        match jGetD object_status "object_type" .jnull with
        | .error e => (st.1, .error e)
        | .ok object_type =>
          if JVal.isStr object_type "NOTEBOOK" || JVal.isStr object_type "DIRECTORY" then
            let kind := if JVal.isStr object_type "NOTEBOOK" then "notebooks"
                        else "directories"
            let ev2 := [Event.getPerms workspace_url kind object_id]
            match w.permsGetResp workspace_url access_token kind object_id with
            | .failure => (st.1 ++ ev2, .ok (some []))
            | .success none => (st.1 ++ ev2, .ok (some []))
            | .success (some body) =>
              match jGetD body "access_control_list" (.jarr []) with
              | .error e => (st.1 ++ ev2, .error e)
              | .ok aclV =>
                match iterList aclV with
                | .error e => (st.1 ++ ev2, .error e)
                | .ok perms =>
                  match permLoop perms [] with
                  | .error e => (st.1 ++ ev2, .error e)
                  | .ok d => (st.1 ++ ev2, .ok (some d))
          else (st.1, .ok none)

/-- `grant_permissions`: resolve the object's status (`False` with a
logged skip when falsy or of unsupported type), build the
`access_control_list` body — one entry for the requested level plus, when
`cluster_id` is truthy, a `CAN_ATTACH_TO` entry carrying that cluster —
and PATCH it; `True` on 2xx, `False` on a caught `RequestException`. -/
def grant_permissions (w : World) (workspace_url access_token path : String)
    (email permission_level : JVal) (cluster_id : Option String) :
    List Event × Except PyErr Bool :=
  let st := get_object_status w workspace_url access_token path
  match st.2 with
  | none => (st.1, .ok false)
  | some object_status =>
    if pyTruthy object_status = false then (st.1, .ok false)
    else
      match jGetD object_status "object_id" .jnull with
      | .error e => (st.1, .error e)
      | .ok object_id =>
        match jGetD object_status "object_type" .jnull with
        | .error e => (st.1, .error e)
        | .ok object_type =>
          if JVal.isStr object_type "NOTEBOOK" || JVal.isStr object_type "DIRECTORY" then
            let kind := if JVal.isStr object_type "NOTEBOOK" then "notebooks"
                        else "directories"
            let data := JVal.jobj [("access_control_list", .jarr (
              [JVal.jobj [("user_name", email), ("permission_level", permission_level)]] ++
              (if optStrTruthy cluster_id then
                 [JVal.jobj [("user_name", email),
                             ("permission_level", .jstr "CAN_ATTACH_TO"),
                             ("cluster_id", .jstr (cluster_id.getD ""))]]
               else [])))]
            let ev2 := [Event.patchPerms workspace_url kind object_id data]
            match w.permsPatchResp workspace_url access_token kind object_id data with
            | .failure => (st.1 ++ ev2, .ok false)
            | .success _ => (st.1 ++ ev2, .ok true)
          else (st.1, .ok false)

/-- The hardcoded fallback permission set substituted when the source
notebook has no (or no fetchable) ACL. -/
def default_permissions : List (JVal × JVal) :=
  [(.jstr "somin.sangwan@digivatelabs.com", .jstr "CAN_MANAGE"),
   (.jstr "samir.shinde@digivatelabs.com", .jstr "CAN_MANAGE")]

/-- `if not source_permissions:` — the permission fetch produced no
entries (`None` or the empty dict). -/
def permsFalsy : Option (List (JVal × JVal)) → Bool
  | none => true
  | some d => d.isEmpty

/-- One `for user, permission_level in perms.items(): grant_permissions(...)`
loop; results are ignored, exceptions propagate. -/
def applyPermsLoop (w : World) (url tok path : String) (cluster_id : Option String) :
    List (JVal × JVal) → List Event × Except PyErr Unit
  | [] => ([], .ok ())
  | (user, permission_level) :: rest =>
    let g := grant_permissions w url tok path user permission_level cluster_id
    match g.2 with
    | .error e => (g.1, .error e)
    | .ok _ =>
      let r := applyPermsLoop w url tok path cluster_id rest
      (g.1 ++ r.1, r.2)

/-- `sync_notebooks_and_permissions`: resolve configs, fetch the fixed
notebook from the source host, import it into both workspaces, resolve its
identifier on both sides, fetch the source ACL (falling back to
`default_permissions` when it has no entries), then apply the resolved set
to the source and the target workspace.  The `git_url` parameter is
accepted but never used. -/
def sync_notebooks_and_permissions (w : World) (e : Env)
    (source_cloud target_cloud : String) (git_url cluster_id : Option String) :
    List Event × Except PyErr Unit :=
  match get_workspace_config e source_cloud, get_workspace_config e target_cloud with
  | none, _ => ([], .ok ())
  | some _, none => ([], .ok ())
  | some source_config, some target_config =>
    let notebook_name := "demon_slayer_notebook.py"
    let fb := fetch_notebook_from_github w (pyStr e.GITHUB_REPO_OWNER)
                (pyStr e.GITHUB_REPO_NAME) notebook_name (pyStr e.GITHUB_TOKEN)
    match fb.2 with
    | .error err => (fb.1, .error err)
    | .ok none => (fb.1, .ok ())
    | .ok (some notebook_content) =>
      if notebook_content = "" then (fb.1, .ok ())
      else
        let workspace_dir := "/Workspace/Users/adhyan.mishra@digivatelabs.com"
        let su := pyStr source_config.url
        let st := pyStr source_config.token
        let tu := pyStr target_config.url
        let tt := pyStr target_config.token
        let si := import_notebook w su st notebook_content notebook_name workspace_dir
        match si.2 with
        | none => (fb.1 ++ si.1, .ok ())
        | some source_notebook_path =>
          if source_notebook_path = "" then (fb.1 ++ si.1, .ok ())
          else
            let ti := import_notebook w tu tt notebook_content notebook_name workspace_dir
            match ti.2 with
            | none => (fb.1 ++ si.1 ++ ti.1, .ok ())
            | some target_notebook_path =>
              if target_notebook_path = "" then (fb.1 ++ si.1 ++ ti.1, .ok ())
              else
                let sid := get_notebook_id w su st source_notebook_path
                match sid.2 with
                | .error err => (fb.1 ++ si.1 ++ ti.1 ++ sid.1, .error err)
                | .ok source_notebook_id =>
                  if pyTruthy source_notebook_id = false then
                    (fb.1 ++ si.1 ++ ti.1 ++ sid.1, .ok ())
                  else
                    let sp := get_permissions w su st source_notebook_path
                    match sp.2 with
                    | .error err => (fb.1 ++ si.1 ++ ti.1 ++ sid.1 ++ sp.1, .error err)
                    | .ok source_permissions0 =>
                      let source_permissions :=
                        if permsFalsy source_permissions0 then default_permissions
                        else source_permissions0.getD []
                      let tid := get_notebook_id w tu tt target_notebook_path
                      match tid.2 with
                      | .error err =>
                          (fb.1 ++ si.1 ++ ti.1 ++ sid.1 ++ sp.1 ++ tid.1, .error err)
                      | .ok target_notebook_id =>
                        if pyTruthy target_notebook_id = false then
                          (fb.1 ++ si.1 ++ ti.1 ++ sid.1 ++ sp.1 ++ tid.1, .ok ())
                        else
                          let a1 := applyPermsLoop w su st source_notebook_path cluster_id
                                      source_permissions
                          match a1.2 with
                          | .error err =>
                              (fb.1 ++ si.1 ++ ti.1 ++ sid.1 ++ sp.1 ++ tid.1 ++ a1.1,
                               .error err)
                          | .ok _ =>
                            let a2 := applyPermsLoop w tu tt target_notebook_path cluster_id
                                        source_permissions
                            (fb.1 ++ si.1 ++ ti.1 ++ sid.1 ++ sp.1 ++ tid.1 ++ a1.1 ++ a2.1,
                             a2.2)

end MulticloudGit

/-! ## Trace classifiers and generic helpers -/

/-- Requests that write workspace structure on the receiving side:
directory creation or notebook import. -/
def isDirOrImport : Event → Bool
  | .postMkdir _ _ => true
  | .postImport _ _ _ => true
  | _ => false

/-- Notebook-import requests. -/
def isImportEv : Event → Bool
  | .postImport _ _ _ => true
  | _ => false

/-- Notebook-export requests. -/
def isExportEv : Event → Bool
  | .getExport _ _ => true
  | _ => false

/-- User-creation requests. -/
def isPostUserEv : Event → Bool
  | .postUser _ _ => true
  | _ => false

/-- Directory-listing requests. -/
def isGetListEv : Event → Bool
  | .getList _ _ => true
  | _ => false

theorem filter_eq_nil_of_pred {p q : Event → Bool} (l : List Event)
    (hall : ∀ ev ∈ l, q ev = true) (hpq : ∀ ev, q ev = true → p ev = false) :
    l.filter p = [] := by
  rw [List.filter_eq_nil_iff]
  intro a ha
  simp [hpq a (hall a ha)]

namespace UserCreation

theorem userLoop_events (w : World) (u t : String) :
    ∀ us, ∀ ev ∈ (userLoop w u t us).1, isPostUserEv ev = true := by
  intro us
  induction us with
  | nil => simp [userLoop]
  | cons user users ih =>
      intro ev hev
      simp only [userLoop] at hev
      rcases hpop : popField user "id" with e | user2 <;> simp only [hpop] at hev
      · simp at hev
      · rcases hcr : (create_user w u t user2).2 with e | b <;> simp only [hcr] at hev
        · simp only [create_user, List.mem_singleton] at hev
          subst hev
          rfl
        · rcases hk : (if b then jGetKey user2 "userName" else .ok .jnull) with e | v <;>
            simp only [hk] at hev
          · simp only [create_user, List.mem_singleton] at hev
            subst hev
            rfl
          · simp only [List.mem_append] at hev
            rcases hev with hev | hev
            · simp only [create_user, List.mem_singleton] at hev
              subst hev
              rfl
            · exact ih ev hev

theorem listLoop_events
    (recurse : String → List Event × Except PyErr (List String × List String))
    (hrec : ∀ p, ∀ ev ∈ (recurse p).1, isGetListEv ev = true) :
    ∀ objs nbs dirs, ∀ ev ∈ (listLoop recurse objs nbs dirs).1, isGetListEv ev = true := by
  intro objs
  induction objs with
  | nil => simp [listLoop]
  | cons obj objs ih =>
      intro nbs dirs ev hev
      simp only [listLoop] at hev
      rcases ht : jGetKey obj "object_type" with e | t2 <;> simp only [ht] at hev
      · simp at hev
      · by_cases hnb : JVal.isStr t2 "NOTEBOOK" = true
        · rw [if_pos hnb] at hev
          rcases hp : jGetStrKey obj "path" with e | p <;> simp only [hp] at hev
          · simp at hev
          · exact ih _ _ ev hev
        · rw [if_neg hnb] at hev
          by_cases hdir : JVal.isStr t2 "DIRECTORY" = true
          · rw [if_pos hdir] at hev
            rcases hp : jGetStrKey obj "path" with e | p <;> simp only [hp] at hev
            · simp at hev
            · rcases hsub : (recurse p).2 with e | subres <;> simp only [hsub] at hev
              · exact hrec p ev hev
              · simp only [List.mem_append] at hev
                rcases hev with hev | hev
                · exact hrec p ev hev
                · exact ih _ _ ev hev
          · rw [if_neg hdir] at hev
            exact ih _ _ ev hev

theorem list_notebooks_events (w : World) (u t : String) :
    ∀ fuel path, ∀ ev ∈ (list_notebooks w u t fuel path).1, isGetListEv ev = true := by
  intro fuel
  induction fuel with
  | zero => simp [list_notebooks]
  | succ fuel ih =>
      intro path ev hev
      simp only [list_notebooks] at hev
      rcases hr : w.listResp u t path with _ | body <;> simp only [hr] at hev
      · simp only [List.mem_singleton] at hev
        subst hev
        rfl
      · rcases body with _ | body <;> simp only [] at hev
        · simp only [List.mem_singleton] at hev
          subst hev
          rfl
        · rcases ho : jGetD body "objects" (.jarr []) with e | objsV <;> simp only [ho] at hev
          · simp only [List.mem_singleton] at hev
            subst hev
            rfl
          · rcases hi : iterList objsV with e | objs <;> simp only [hi] at hev
            · simp only [List.mem_singleton] at hev
              subst hev
              rfl
            · simp only [List.mem_append, List.mem_singleton] at hev
              rcases hev with rfl | hev
              · rfl
              · exact listLoop_events _ (fun p => ih p) objs [] [] ev hev

end UserCreation

namespace UserCreation

/-- Whether the export of a notebook yields truthy content (a non-`None`,
non-empty string) — the condition under which `transfer_users_and_notebooks`
imports it. -/
def exportTruthy (w : World) (su st p : String) : Bool :=
  match (export_notebook w su st p).2 with
  | .ok (some c) => c != ""
  | _ => false

/-- The text exported for a notebook (defaulting to `""` on failure; only
meaningful when `exportTruthy` holds). -/
def exportedText (w : World) (su st p : String) : String :=
  match (export_notebook w su st p).2 with
  | .ok (some c) => c
  | _ => ""

theorem dirLoop_eq_map (w : World) (u t : String) :
    ∀ ds, dirLoop w u t ds = ds.map (Event.postMkdir u) := by
  intro ds
  induction ds with
  | nil => rfl
  | cons d ds ih => simp [dirLoop, create_directory, ih]

theorem nbLoop_filter_export (w : World) (su st tu tt : String) :
    ∀ ps, (∀ p ∈ ps, ∃ r, (export_notebook w su st p).2 = .ok r) →
    ((nbLoop w su st tu tt ps).1).filter isExportEv = ps.map (Event.getExport su) := by
  intro ps
  induction ps with
  | nil => simp [nbLoop]
  | cons p ps ih =>
      intro hok
      obtain ⟨r, hr⟩ := hok p (by simp)
      have hrest := ih (fun q hq => hok q (by simp [hq]))
      simp only [nbLoop]
      rcases r with _ | content <;> simp only [hr]
      · simp [export_notebook, isExportEv, hrest]
      · by_cases hc : content = ""
        · rw [if_pos hc]
          simp [export_notebook, isExportEv, hrest]
        · rw [if_neg hc]
          simp [export_notebook, import_notebook, isExportEv, isImportEv, hrest]

theorem nbLoop_filter_write (w : World) (su st tu tt : String) :
    ∀ ps, (∀ p ∈ ps, ∃ r, (export_notebook w su st p).2 = .ok r) →
    ((nbLoop w su st tu tt ps).1).filter isDirOrImport =
      (ps.filter (exportTruthy w su st)).map
        (fun p => Event.postImport tu p (encodeContent (exportedText w su st p))) := by
  intro ps
  induction ps with
  | nil => simp [nbLoop]
  | cons p ps ih =>
      intro hok
      obtain ⟨r, hr⟩ := hok p (by simp)
      have hrest := ih (fun q hq => hok q (by simp [hq]))
      have htr : exportTruthy w su st p =
          (match (export_notebook w su st p).2 with
           | .ok (some c) => c != ""
           | _ => false) := rfl
      simp only [nbLoop]
      rcases r with _ | content <;> simp only [hr]
      · have ht : exportTruthy w su st p = false := by rw [htr, hr]
        simp [export_notebook, isDirOrImport, List.filter_cons, ht, hrest]
      · by_cases hc : content = ""
        · rw [if_pos hc]
          have ht : exportTruthy w su st p = false := by
            rw [htr, hr]
            simp [hc]
          simp [export_notebook, isDirOrImport, List.filter_cons, ht, hrest]
        · rw [if_neg hc]
          have ht : exportTruthy w su st p = true := by
            rw [htr, hr]
            simp [hc]
          have hx : exportedText w su st p = content := by
            rw [exportedText, hr]
          simp [export_notebook, import_notebook, isDirOrImport, List.filter_cons, ht, hx,
            hrest]

theorem nbLoop_events (w : World) (su st tu tt : String) :
    ∀ ps, ∀ ev ∈ (nbLoop w su st tu tt ps).1, isExportEv ev = true ∨ isImportEv ev = true := by
  intro ps
  induction ps with
  | nil => simp [nbLoop]
  | cons p ps ih =>
      intro ev hev
      simp only [nbLoop] at hev
      rcases hr : (export_notebook w su st p).2 with e | r <;> simp only [hr] at hev
      · simp only [export_notebook, List.mem_singleton] at hev
        subst hev
        left
        rfl
      · rcases r with _ | content <;> simp only [] at hev
        · simp only [List.mem_append, export_notebook, List.mem_singleton] at hev
          rcases hev with rfl | hev
          · left; rfl
          · exact ih ev hev
        · by_cases hc : content = ""
          · rw [if_pos hc] at hev
            simp only [List.mem_append, export_notebook, List.mem_singleton] at hev
            rcases hev with rfl | hev
            · left; rfl
            · exact ih ev hev
          · rw [if_neg hc] at hev
            simp only [List.mem_append, export_notebook, import_notebook,
              List.mem_singleton] at hev
            rcases hev with (rfl | rfl) | hev
            · left; rfl
            · right; rfl
            · exact ih ev hev

end UserCreation

theorem postUser_not_other : ∀ ev : Event, isPostUserEv ev = true →
    isDirOrImport ev = false ∧ isImportEv ev = false ∧ isExportEv ev = false := by
  intro ev h
  cases ev <;> simp_all [isPostUserEv, isDirOrImport, isImportEv, isExportEv]

theorem getList_not_other : ∀ ev : Event, isGetListEv ev = true →
    isDirOrImport ev = false ∧ isImportEv ev = false ∧ isExportEv ev = false ∧
    isPostUserEv ev = false := by
  intro ev h
  cases ev <;> simp_all [isGetListEv, isDirOrImport, isImportEv, isExportEv, isPostUserEv]

theorem nbLoop_not_postUser (w : World) (su st tu tt : String) (ps : List String) :
    ∀ ev ∈ (UserCreation.nbLoop w su st tu tt ps).1, isPostUserEv ev = false := by
  intro ev hev
  rcases UserCreation.nbLoop_events w su st tu tt ps ev hev with h | h <;>
    cases ev <;> simp_all [isExportEv, isImportEv, isPostUserEv]

theorem mkdirMap_filter_self (u : String) (ds : List String) :
    (ds.map (Event.postMkdir u)).filter isDirOrImport = ds.map (Event.postMkdir u) := by
  induction ds with
  | nil => rfl
  | cons d ds ih => simp [List.filter_cons, isDirOrImport, ih]

theorem mkdirMap_filter_import (u : String) (ds : List String) :
    (ds.map (Event.postMkdir u)).filter isImportEv = [] := by
  induction ds with
  | nil => rfl
  | cons d ds ih => simp [List.filter_cons, isImportEv, ih]

theorem mkdirMap_filter_export (u : String) (ds : List String) :
    (ds.map (Event.postMkdir u)).filter isExportEv = [] := by
  induction ds with
  | nil => rfl
  | cons d ds ih => simp [List.filter_cons, isExportEv, ih]

theorem mkdirMap_filter_postUser (u : String) (ds : List String) :
    (ds.map (Event.postMkdir u)).filter isPostUserEv = [] := by
  induction ds with
  | nil => rfl
  | cons d ds ih => simp [List.filter_cons, isPostUserEv, ih]

namespace UserCreation

/-- A variant of `nbLoop_filter_write` for the import-only classifier (the
loop issues no directory-creation requests, so the two filters agree). -/
theorem nbLoop_filter_import (w : World) (su st tu tt : String) :
    ∀ ps, (∀ p ∈ ps, ∃ r, (export_notebook w su st p).2 = .ok r) →
    ((nbLoop w su st tu tt ps).1).filter isImportEv =
      (ps.filter (exportTruthy w su st)).map
        (fun p => Event.postImport tu p (encodeContent (exportedText w su st p))) := by
  intro ps
  induction ps with
  | nil => simp [nbLoop]
  | cons p ps ih =>
      intro hok
      obtain ⟨r, hr⟩ := hok p (by simp)
      have hrest := ih (fun q hq => hok q (by simp [hq]))
      have htr : exportTruthy w su st p =
          (match (export_notebook w su st p).2 with
           | .ok (some c) => c != ""
           | _ => false) := rfl
      simp only [nbLoop]
      rcases r with _ | content <;> simp only [hr]
      · have ht : exportTruthy w su st p = false := by rw [htr, hr]
        simp [export_notebook, isImportEv, List.filter_cons, ht, hrest]
      · by_cases hc : content = ""
        · rw [if_pos hc]
          have ht : exportTruthy w su st p = false := by
            rw [htr, hr]
            simp [hc]
          simp [export_notebook, isImportEv, List.filter_cons, ht, hrest]
        · rw [if_neg hc]
          have ht : exportTruthy w su st p = true := by
            rw [htr, hr]
            simp [hc]
          have hx : exportedText w su st p = content := by
            rw [exportedText, hr]
          simp [export_notebook, import_notebook, isImportEv, List.filter_cons, ht, hx,
            hrest]

/-- Decomposition of the orchestrator's trace into its phases, given that
every phase before the notebook loop completes normally. -/
theorem transfer_trace_eq (w : World) (e : Env) (fuel : Nat) (s t : String)
    (sc tc : WsConfig) (usersV : JVal) (users : List JVal) (nbs dirs : List String)
    (h1 : get_workspace_config e s = some sc)
    (h2 : get_workspace_config e t = some tc)
    (h3 : (get_users w (pyStr sc.url) (pyStr sc.token)).2 = .ok usersV)
    (h4 : iterList usersV = .ok users)
    (h5 : (userLoop w (pyStr tc.url) (pyStr tc.token) users).2 = .ok ())
    (h6 : (list_notebooks w (pyStr sc.url) (pyStr sc.token) fuel "/").2 = .ok (nbs, dirs)) :
    (transfer_users_and_notebooks w e fuel s t).1 =
      (get_users w (pyStr sc.url) (pyStr sc.token)).1 ++
      (userLoop w (pyStr tc.url) (pyStr tc.token) users).1 ++
      (list_notebooks w (pyStr sc.url) (pyStr sc.token) fuel "/").1 ++
      dirLoop w (pyStr tc.url) (pyStr tc.token) (List.insertionSort (· ≤ ·) dirs) ++
      (nbLoop w (pyStr sc.url) (pyStr sc.token) (pyStr tc.url) (pyStr tc.token) nbs).1 := by
  simp only [transfer_users_and_notebooks, h1, h2, h3, h4, h5, h6]

end UserCreation

/-- The payload that the user-transfer loop sends for a fetched record:
the record with its server-assigned `id` field removed (the effect of
`user.pop("id", None)` on a dict). -/
def strippedUser : JVal → JVal
  | .jobj fs => .jobj (fs.filter (fun kv => kv.1 ≠ "id"))
  | v => v

/-- A user record is well-formed for the transfer loop: a dict that (after
stripping `id`) still carries a `userName` key, so the loop's
`user["userName"]` accesses cannot raise. -/
def userOk (user : JVal) : Prop :=
  ∃ fs, user = .jobj fs ∧
    ∃ v, assocGet (fs.filter (fun kv => kv.1 ≠ "id")) "userName" = some v

namespace UserCreation

theorem create_user_ok (w : World) (u t : String) (fs : List (String × JVal)) (v : JVal)
    (hv : assocGet fs "userName" = some v) :
    (create_user w u t (.jobj fs)).2 =
      .ok (match w.createUserResp u t (.jobj fs) with
           | .failure => false
           | .success _ => true) := by
  have hkey : jGetKey (.jobj fs) "userName" = .ok v := by rw [jGetKey, hv]
  rcases hcr : w.createUserResp u t (.jobj fs) with _ | body <;>
    simp only [create_user, hcr, hkey]

theorem userLoop_filter_postUser (w : World) (u t : String) :
    ∀ us, (∀ user ∈ us, userOk user) →
    ((userLoop w u t us).1).filter isPostUserEv =
      us.map (fun user => Event.postUser u (strippedUser user)) := by
  intro us
  induction us with
  | nil => simp [userLoop]
  | cons user users ih =>
      intro hok
      obtain ⟨fs, rfl, v, hv⟩ := hok user (by simp)
      have hrest := ih (fun q hq => hok q (by simp [hq]))
      have hpop : popField (.jobj fs) "id" =
          .ok (.jobj (fs.filter (fun kv => kv.1 ≠ "id"))) := rfl
      have hkey2 : jGetKey (.jobj (fs.filter (fun kv => kv.1 ≠ "id"))) "userName" = .ok v := by
        rw [jGetKey, hv]
      have hcu := create_user_ok w u t (fs.filter (fun kv => kv.1 ≠ "id")) v hv
      rcases hcr : w.createUserResp u t (.jobj (fs.filter (fun kv => kv.1 ≠ "id"))) with _ | body <;>
        simp only [hcr] at hcu <;>
        simp only [userLoop, hpop, hcu, if_false, if_true, hkey2] <;>
        simp [create_user, List.filter_cons, isPostUserEv, hrest, strippedUser]

theorem userLoop_ok (w : World) (u t : String) :
    ∀ us, (∀ user ∈ us, userOk user) → ((userLoop w u t us).2 = .ok ()) := by
  intro us
  induction us with
  | nil => intro _; rfl
  | cons user users ih =>
      intro hok
      obtain ⟨fs, rfl, v, hv⟩ := hok user (by simp)
      have hrest := ih (fun q hq => hok q (by simp [hq]))
      have hpop : popField (.jobj fs) "id" =
          .ok (.jobj (fs.filter (fun kv => kv.1 ≠ "id"))) := rfl
      have hkey2 : jGetKey (.jobj (fs.filter (fun kv => kv.1 ≠ "id"))) "userName" = .ok v := by
        rw [jGetKey, hv]
      have hcu := create_user_ok w u t (fs.filter (fun kv => kv.1 ≠ "id")) v hv
      rcases hcr : w.createUserResp u t (.jobj (fs.filter (fun kv => kv.1 ≠ "id"))) with _ | body <;>
        simp only [hcr] at hcu <;>
        simp only [userLoop, hpop, hcu, if_false, if_true, hkey2] <;>
        simp [hrest]

/-- The workspace-structure writes that the target receives, under the
hypotheses that both configs resolve and every phase before the notebook
loop completes normally: the sorted directory creations followed by the
imports of the truthily-exported notebooks, in discovery order. -/
theorem transfer_filter_write (w : World) (e : Env) (fuel : Nat) (s t : String)
    (sc tc : WsConfig) (usersV : JVal) (users : List JVal) (nbs dirs : List String)
    (h1 : get_workspace_config e s = some sc)
    (h2 : get_workspace_config e t = some tc)
    (h3 : (get_users w (pyStr sc.url) (pyStr sc.token)).2 = .ok usersV)
    (h4 : iterList usersV = .ok users)
    (h5 : (userLoop w (pyStr tc.url) (pyStr tc.token) users).2 = .ok ())
    (h6 : (list_notebooks w (pyStr sc.url) (pyStr sc.token) fuel "/").2 = .ok (nbs, dirs))
    (h7 : ∀ p ∈ nbs, ∃ r, (export_notebook w (pyStr sc.url) (pyStr sc.token) p).2 = .ok r) :
    ((transfer_users_and_notebooks w e fuel s t).1).filter isDirOrImport =
      (List.insertionSort (· ≤ ·) dirs).map (Event.postMkdir (pyStr tc.url)) ++
      (nbs.filter (exportTruthy w (pyStr sc.url) (pyStr sc.token))).map
        (fun p => Event.postImport (pyStr tc.url) p
          (encodeContent (exportedText w (pyStr sc.url) (pyStr sc.token) p))) := by
  rw [transfer_trace_eq w e fuel s t sc tc usersV users nbs dirs h1 h2 h3 h4 h5 h6]
  rw [List.filter_append, List.filter_append, List.filter_append, List.filter_append]
  rw [filter_eq_nil_of_pred _ (userLoop_events w (pyStr tc.url) (pyStr tc.token) users)
    (fun ev h => (postUser_not_other ev h).1)]
  rw [filter_eq_nil_of_pred _
    (list_notebooks_events w (pyStr sc.url) (pyStr sc.token) fuel "/")
    (fun ev h => (getList_not_other ev h).1)]
  rw [dirLoop_eq_map, mkdirMap_filter_self]
  rw [nbLoop_filter_write w (pyStr sc.url) (pyStr sc.token) (pyStr tc.url) (pyStr tc.token)
    nbs h7]
  simp [get_users, isDirOrImport]

/-- Every discovered notebook is exported (one export request per
discovered path, in discovery order), under the same hypotheses. -/
theorem transfer_filter_export (w : World) (e : Env) (fuel : Nat) (s t : String)
    (sc tc : WsConfig) (usersV : JVal) (users : List JVal) (nbs dirs : List String)
    (h1 : get_workspace_config e s = some sc)
    (h2 : get_workspace_config e t = some tc)
    (h3 : (get_users w (pyStr sc.url) (pyStr sc.token)).2 = .ok usersV)
    (h4 : iterList usersV = .ok users)
    (h5 : (userLoop w (pyStr tc.url) (pyStr tc.token) users).2 = .ok ())
    (h6 : (list_notebooks w (pyStr sc.url) (pyStr sc.token) fuel "/").2 = .ok (nbs, dirs))
    (h7 : ∀ p ∈ nbs, ∃ r, (export_notebook w (pyStr sc.url) (pyStr sc.token) p).2 = .ok r) :
    ((transfer_users_and_notebooks w e fuel s t).1).filter isExportEv =
      nbs.map (Event.getExport (pyStr sc.url)) := by
  rw [transfer_trace_eq w e fuel s t sc tc usersV users nbs dirs h1 h2 h3 h4 h5 h6]
  rw [List.filter_append, List.filter_append, List.filter_append, List.filter_append]
  rw [filter_eq_nil_of_pred _ (userLoop_events w (pyStr tc.url) (pyStr tc.token) users)
    (fun ev h => (postUser_not_other ev h).2.2)]
  rw [filter_eq_nil_of_pred _
    (list_notebooks_events w (pyStr sc.url) (pyStr sc.token) fuel "/")
    (fun ev h => (getList_not_other ev h).2.2.1)]
  rw [dirLoop_eq_map, mkdirMap_filter_export]
  rw [nbLoop_filter_export w (pyStr sc.url) (pyStr sc.token) (pyStr tc.url) (pyStr tc.token)
    nbs h7]
  simp [get_users, isExportEv]

/-- The notebook imports the target receives, under the same
hypotheses. -/
theorem transfer_filter_import (w : World) (e : Env) (fuel : Nat) (s t : String)
    (sc tc : WsConfig) (usersV : JVal) (users : List JVal) (nbs dirs : List String)
    (h1 : get_workspace_config e s = some sc)
    (h2 : get_workspace_config e t = some tc)
    (h3 : (get_users w (pyStr sc.url) (pyStr sc.token)).2 = .ok usersV)
    (h4 : iterList usersV = .ok users)
    (h5 : (userLoop w (pyStr tc.url) (pyStr tc.token) users).2 = .ok ())
    (h6 : (list_notebooks w (pyStr sc.url) (pyStr sc.token) fuel "/").2 = .ok (nbs, dirs))
    (h7 : ∀ p ∈ nbs, ∃ r, (export_notebook w (pyStr sc.url) (pyStr sc.token) p).2 = .ok r) :
    ((transfer_users_and_notebooks w e fuel s t).1).filter isImportEv =
      (nbs.filter (exportTruthy w (pyStr sc.url) (pyStr sc.token))).map
        (fun p => Event.postImport (pyStr tc.url) p
          (encodeContent (exportedText w (pyStr sc.url) (pyStr sc.token) p))) := by
  rw [transfer_trace_eq w e fuel s t sc tc usersV users nbs dirs h1 h2 h3 h4 h5 h6]
  rw [List.filter_append, List.filter_append, List.filter_append, List.filter_append]
  rw [filter_eq_nil_of_pred _ (userLoop_events w (pyStr tc.url) (pyStr tc.token) users)
    (fun ev h => (postUser_not_other ev h).2.1)]
  rw [filter_eq_nil_of_pred _
    (list_notebooks_events w (pyStr sc.url) (pyStr sc.token) fuel "/")
    (fun ev h => (getList_not_other ev h).2.1)]
  rw [dirLoop_eq_map, mkdirMap_filter_import]
  rw [nbLoop_filter_import w (pyStr sc.url) (pyStr sc.token) (pyStr tc.url) (pyStr tc.token)
    nbs h7]
  simp [get_users, isImportEv]

/-- The user-creation requests the target receives: one per fetched
record, in order, each carrying the record with `id` stripped.  No
hypothesis on the listing phase is needed — the later phases issue no
user-creation requests whether or not listing succeeds. -/
theorem transfer_filter_postUser (w : World) (e : Env) (fuel : Nat) (s t : String)
    (sc tc : WsConfig) (usersV : JVal) (users : List JVal)
    (h1 : get_workspace_config e s = some sc)
    (h2 : get_workspace_config e t = some tc)
    (h3 : (get_users w (pyStr sc.url) (pyStr sc.token)).2 = .ok usersV)
    (h4 : iterList usersV = .ok users)
    (husers : ∀ user ∈ users, userOk user) :
    ((transfer_users_and_notebooks w e fuel s t).1).filter isPostUserEv =
      users.map (fun user => Event.postUser (pyStr tc.url) (strippedUser user)) := by
  have h5 := userLoop_ok w (pyStr tc.url) (pyStr tc.token) users husers
  have hu := userLoop_filter_postUser w (pyStr tc.url) (pyStr tc.token) users husers
  have hg : ((get_users w (pyStr sc.url) (pyStr sc.token)).1).filter isPostUserEv = [] := by
    simp [get_users, isPostUserEv]
  have hl : ((list_notebooks w (pyStr sc.url) (pyStr sc.token) fuel "/").1).filter
      isPostUserEv = [] :=
    filter_eq_nil_of_pred _
      (list_notebooks_events w (pyStr sc.url) (pyStr sc.token) fuel "/")
      (fun ev h => (getList_not_other ev h).2.2.2)
  simp only [transfer_users_and_notebooks, h1, h2, h3, h4, h5]
  rcases hln : (list_notebooks w (pyStr sc.url) (pyStr sc.token) fuel "/").2 with err | nbsdirs <;>
    simp only [hln]
  · rw [List.filter_append, List.filter_append, hg, hl, hu]
    simp
  · have hnb : ((nbLoop w (pyStr sc.url) (pyStr sc.token) (pyStr tc.url) (pyStr tc.token)
        nbsdirs.1).1).filter isPostUserEv = [] :=
      List.filter_eq_nil_iff.mpr (fun ev hev => by
        simp [nbLoop_not_postUser w (pyStr sc.url) (pyStr sc.token) (pyStr tc.url)
          (pyStr tc.token) nbsdirs.1 ev hev])
    rw [List.filter_append, List.filter_append, List.filter_append, List.filter_append,
      hg, hl, hu, dirLoop_eq_map, mkdirMap_filter_postUser, hnb]
    simp

end UserCreation

/-! ## Claim theorems -/

/-- A world in which every request fails at transport level (or with a
non-2xx status). -/
def allFailWorld : World where
  usersResp := fun _ _ => .failure
  createUserResp := fun _ _ _ => .failure
  listResp := fun _ _ _ => .failure
  exportResp := fun _ _ _ => .failure
  mkdirResp := fun _ _ _ => .failure
  importResp := fun _ _ _ _ => .failure
  githubResp := fun _ _ _ _ => .failure
  statusResp := fun _ _ _ => .failure
  permsGetResp := fun _ _ _ _ => .failure
  permsPatchResp := fun _ _ _ _ _ => .failure

/-- A world whose export endpoint answers 2xx with a JSON body that has no
`content` field. -/
def noContentWorld : World :=
  { allFailWorld with exportResp := fun _ _ _ => .success (some (.jobj [])) }

/-- C7 — counterexample.  The claim says `export_notebook` returns null
when the response lacks a content field; on such a response the function
actually returns the empty string (the `.get("content", "")` default
decodes to `""`), a non-null value. -/
theorem C7_counterexample :
    (UserCreation.export_notebook noContentWorld "u" "t" "/nb").2 = .ok (some "") ∧
    (UserCreation.export_notebook noContentWorld "u" "t" "/nb").2 ≠ .ok none := by
  refine ⟨rfl, fun h => ?_⟩
  exact Option.noConfusion (Except.ok.inj h)

/-- C7 — amended.  `export_notebook` returns `None` on any caught
transport / non-2xx / non-JSON failure; it returns the decoded text when
the response carries a well-formed base64 content field; and when the
response lacks a content field it returns the empty string — a falsy but
non-null sentinel — rather than `None`. -/
theorem C7_export_notebook_result (w : World) (url tok path : String) :
    (w.exportResp url tok path = .failure →
      (UserCreation.export_notebook w url tok path).2 = .ok none) ∧
    (w.exportResp url tok path = .success none →
      (UserCreation.export_notebook w url tok path).2 = .ok none) ∧
    (∀ fs, w.exportResp url tok path = .success (some (.jobj fs)) →
      assocGet fs "content" = none →
      (UserCreation.export_notebook w url tok path).2 = .ok (some "")) ∧
    (∀ fs content, w.exportResp url tok path = .success (some (.jobj fs)) →
      assocGet fs "content" = some (.jstr (encodeContent content)) →
      (UserCreation.export_notebook w url tok path).2 = .ok (some content)) := by
  refine ⟨?_, ?_, ?_, ?_⟩
  · intro h
    simp [UserCreation.export_notebook, h]
  · intro h
    simp [UserCreation.export_notebook, h]
  · intro fs h hc
    simp only [UserCreation.export_notebook, h, jGetD, hc, Option.getD_none]
    rfl
  · intro fs content h hc
    simp only [UserCreation.export_notebook, h, jGetD, hc, Option.getD_some,
      decodeContent_encodeContent]

/-- A world whose export endpoint answers 2xx with a non-JSON body. -/
def exportJsonlessWorld : World :=
  { allFailWorld with exportResp := fun _ _ _ => .success none }

/-- A world whose export endpoint answers with a well-formed base64
content field. -/
def exportGoodWorld : World :=
  { allFailWorld with
      exportResp := fun _ _ _ => .success (some (.jobj [("content",
        .jstr (encodeContent "x = 1"))])) }

theorem C7_witness :
    (UserCreation.export_notebook allFailWorld "u" "t" "/nb").2 = .ok none ∧
    (UserCreation.export_notebook exportJsonlessWorld "u" "t" "/nb").2 = .ok none ∧
    (UserCreation.export_notebook noContentWorld "u" "t" "/nb").2 = .ok (some "") ∧
    (UserCreation.export_notebook exportGoodWorld "u" "t" "/nb").2 = .ok (some "x = 1") :=
  ⟨(C7_export_notebook_result allFailWorld "u" "t" "/nb").1 rfl,
   (C7_export_notebook_result exportJsonlessWorld "u" "t" "/nb").2.1 rfl,
   (C7_export_notebook_result noContentWorld "u" "t" "/nb").2.2.1 [] rfl rfl,
   (C7_export_notebook_result exportGoodWorld "u" "t" "/nb").2.2.2
     [("content", .jstr (encodeContent "x = 1"))] "x = 1" rfl rfl⟩

/-- C8.  `import_notebook` sends exactly the base64-encoding of the
content as the stored write, and `export_notebook`, fed a response
carrying that stored value back, returns the byte-identical original text;
iterating the pair at the same path is therefore the identity on
content. -/
theorem C8_roundtrip (w : World) (url tok path url2 tok2 path2 content : String) :
    (UserCreation.import_notebook w url tok path content).1 =
      [Event.postImport url path (encodeContent content)] ∧
    (w.exportResp url2 tok2 path2 =
        .success (some (.jobj [("content", .jstr (encodeContent content))])) →
      (UserCreation.export_notebook w url2 tok2 path2).2 = .ok (some content)) := by
  refine ⟨rfl, fun h => ?_⟩
  simp [UserCreation.export_notebook, h, jGetD, assocGet, decodeContent_encodeContent]

/-- A mocked remote that stores the last write of `/nb` and serves it back
on export. -/
def storeWorld : World :=
  { allFailWorld with
      importResp := fun _ _ _ _ => .success none,
      exportResp := fun _ _ _ => .success (some (.jobj [("content",
        .jstr (encodeContent "print(42)"))])) }

theorem C8_witness :
    (UserCreation.import_notebook storeWorld "TU" "tk" "/nb" "print(42)").1 =
      [Event.postImport "TU" "/nb" (encodeContent "print(42)")] ∧
    (UserCreation.export_notebook storeWorld "TU" "tk" "/nb").2 = .ok (some "print(42)") :=
  ⟨(C8_roundtrip storeWorld "TU" "tk" "/nb" "TU" "tk" "/nb" "print(42)").1,
   (C8_roundtrip storeWorld "TU" "tk" "/nb" "TU" "tk" "/nb" "print(42)").2 rfl⟩

namespace UserCreation

/-- When both names resolve, the transfer's first HTTP request is the
users GET against the source, whatever the remote does afterwards. -/
theorem transfer_trace_cons (w : World) (e : Env) (fuel : Nat) (s t : String)
    (sc tc : WsConfig)
    (h1 : get_workspace_config e s = some sc)
    (h2 : get_workspace_config e t = some tc) :
    ∃ rest, (transfer_users_and_notebooks w e fuel s t).1 =
      Event.getUsers (pyStr sc.url) :: rest := by
  simp only [transfer_users_and_notebooks, h1, h2]
  repeat' split
  all_goals exact ⟨_, rfl⟩

end UserCreation

namespace MulticloudGit

/-- When both names resolve, the sync's first HTTP request is the GitHub
contents GET, whatever the remote does afterwards. -/
theorem sync_trace_cons (w : World) (e : Env) (s t : String)
    (git_url cluster_id : Option String) (sc tc : WsConfig)
    (h1 : get_workspace_config e s = some sc)
    (h2 : get_workspace_config e t = some tc) :
    ∃ rest, (sync_notebooks_and_permissions w e s t git_url cluster_id).1 =
      Event.getGithub (pyStr e.GITHUB_REPO_OWNER) (pyStr e.GITHUB_REPO_NAME)
        "demon_slayer_notebook.py" :: rest := by
  simp only [sync_notebooks_and_permissions, h1, h2]
  repeat' split
  all_goals exact ⟨_, rfl⟩

end MulticloudGit

/-- The module-level environment of `user_creation_adding_notebooks.py`
with every variable unset. -/
def emptyEnvU : UserCreation.Env :=
  { STAGING_WORKSPACE_URL := none, STAGING_ACCESS_TOKEN := none,
    PREPROD_WORKSPACE_URL := none, PREPROD_ACCESS_TOKEN := none }

/-- C4 — counterexample.  With every environment variable unset, the name
`STAGING` still resolves (to a config whose url and token are both
absent), and the run does not halt before issuing HTTP calls: it issues
the users GET and the listing GET against the placeholder url. -/
theorem C4_counterexample :
    UserCreation.get_workspace_config emptyEnvU "STAGING" =
      some { url := none, token := none } ∧
    (UserCreation.transfer_users_and_notebooks allFailWorld emptyEnvU 1
        "STAGING" "PREPROD").1 =
      [Event.getUsers "None", Event.getList "None" "/"] := by
  constructor
  · rfl
  · rfl

/-- C4 — amended.  Both orchestrators issue no HTTP request precisely when
one of the two names fails to resolve in the module's config table; when
both names resolve the run proceeds to issue HTTP calls even if the
resolved url or token is absent or empty (the absent value is rendered as
the placeholder string `"None"` in the request URL). -/
theorem C4_config_gating (w : World) (e1 : UserCreation.Env) (e2 : MulticloudGit.Env)
    (fuel : Nat) (s t s2 t2 : String) (git_url cluster_id : Option String) :
    ((UserCreation.transfer_users_and_notebooks w e1 fuel s t).1 = [] ↔
      (UserCreation.get_workspace_config e1 s = none ∨
       UserCreation.get_workspace_config e1 t = none)) ∧
    ((MulticloudGit.sync_notebooks_and_permissions w e2 s2 t2 git_url cluster_id).1 = [] ↔
      (MulticloudGit.get_workspace_config e2 s2 = none ∨
       MulticloudGit.get_workspace_config e2 t2 = none)) := by
  constructor
  · rcases hs : UserCreation.get_workspace_config e1 s with _ | sc
    · simp [UserCreation.transfer_users_and_notebooks, hs]
    · rcases ht : UserCreation.get_workspace_config e1 t with _ | tc
      · simp [UserCreation.transfer_users_and_notebooks, hs, ht]
      · obtain ⟨rest, hr⟩ := UserCreation.transfer_trace_cons w e1 fuel s t sc tc hs ht
        rw [hr]
        simp
  · rcases hs : MulticloudGit.get_workspace_config e2 s2 with _ | sc
    · simp [MulticloudGit.sync_notebooks_and_permissions, hs]
    · rcases ht : MulticloudGit.get_workspace_config e2 t2 with _ | tc
      · simp [MulticloudGit.sync_notebooks_and_permissions, hs, ht]
      · obtain ⟨rest, hr⟩ := MulticloudGit.sync_trace_cons w e2 s2 t2 git_url cluster_id
          sc tc hs ht
        rw [hr]
        simp

/-- A world whose export endpoint answers 2xx with a malformed (one
character, hence unpaddable) base64 content field. -/
def badB64World : World :=
  { allFailWorld with
      exportResp := fun _ _ _ => .success (some (.jobj [("content", .jstr "A")])) }

/-- C3 — counterexample.  The claim says every leaf operation converts
every remote response — including a malformed base64 content field — into
a sentinel return.  In fact `base64.b64decode` raises `binascii.Error`,
which is not a `RequestException` and escapes `export_notebook`. -/
theorem C3_counterexample :
    (UserCreation.export_notebook badB64World "u" "t" "/nb").2 =
      .error PyErr.binasciiError := by
  rfl

/-- C3 — amended.  Every leaf operation converts a transport error,
non-2xx status or non-JSON body of its own request into its sentinel
return (null / false / empty collection); the exceptions the claim misses
are semantically malformed 2xx payloads (malformed base64 content, records
lacking expected fields), which raise past the operation's boundary. -/
theorem C3_sentinels (w : World) (u t p o r gp gt nm wd content : String)
    (fsu : List (String × JVal)) (uv : JVal) (email lvl oid : JVal)
    (cid : Option String) (fuel : Nat) :
    ((w.usersResp u t = .failure ∨ w.usersResp u t = .success none) →
      (UserCreation.get_users w u t).2 = .ok (.jarr [])) ∧
    (w.createUserResp u t (.jobj fsu) = .failure → assocGet fsu "userName" = some uv →
      (UserCreation.create_user w u t (.jobj fsu)).2 = .ok false) ∧
    ((w.listResp u t p = .failure ∨ w.listResp u t p = .success none) →
      (UserCreation.list_notebooks w u t (fuel + 1) p).2 = .ok ([], [])) ∧
    ((w.exportResp u t p = .failure ∨ w.exportResp u t p = .success none) →
      (UserCreation.export_notebook w u t p).2 = .ok none) ∧
    ((UserCreation.create_directory w u t p).2 = .ok ()) ∧
    (w.importResp u t p (encodeContent content) = .failure →
      (UserCreation.import_notebook w u t p content).2 = .ok false) ∧
    ((w.githubResp o r gp gt = .failure ∨ w.githubResp o r gp gt = .success none) →
      (MulticloudGit.fetch_notebook_from_github w o r gp gt).2 = .ok none) ∧
    ((w.statusResp u t p = .failure ∨ w.statusResp u t p = .success none) →
      (MulticloudGit.get_notebook_id w u t p).2 = .ok .jnull) ∧
    ((w.statusResp u t p = .failure ∨ w.statusResp u t p = .success none) →
      (MulticloudGit.get_object_status w u t p).2 = none) ∧
    (w.statusResp u t p = .failure →
      (MulticloudGit.get_permissions w u t p).2 = .ok none) ∧
    (w.statusResp u t p =
        .success (some (.jobj [("object_id", oid), ("object_type", .jstr "NOTEBOOK")])) →
      w.permsGetResp u t "notebooks" oid = .failure →
      (MulticloudGit.get_permissions w u t p).2 = .ok (some [])) ∧
    (w.statusResp u t p = .failure →
      (MulticloudGit.grant_permissions w u t p email lvl cid).2 = .ok false) ∧
    (w.importResp u t (wd ++ "/" ++ nm) (encodeContent content) = .failure →
      (MulticloudGit.import_notebook w u t content nm wd).2 = none) := by
  refine ⟨?_, ?_, ?_, ?_, ?_, ?_, ?_, ?_, ?_, ?_, ?_, ?_, ?_⟩
  · rintro (h | h) <;> simp [UserCreation.get_users, h]
  · intro h hv
    have hkey : jGetKey (.jobj fsu) "userName" = .ok uv := by rw [jGetKey, hv]
    simp [UserCreation.create_user, h, hkey]
  · rintro (h | h) <;> simp [UserCreation.list_notebooks, h]
  · rintro (h | h) <;> simp [UserCreation.export_notebook, h]
  · rcases h : w.mkdirResp u t p with _ | b <;> simp [UserCreation.create_directory, h]
  · intro h
    simp [UserCreation.import_notebook, h]
  · rintro (h | h) <;> simp [MulticloudGit.fetch_notebook_from_github, h]
  · rintro (h | h) <;> simp [MulticloudGit.get_notebook_id, h]
  · rintro (h | h) <;> simp [MulticloudGit.get_object_status, h]
  · intro h
    simp [MulticloudGit.get_permissions, MulticloudGit.get_object_status, h]
  · intro hst hpg
    simp [MulticloudGit.get_permissions, MulticloudGit.get_object_status, hst, hpg,
      pyTruthy, jGetD, assocGet, JVal.isStr]
  · intro h
    simp [MulticloudGit.grant_permissions, MulticloudGit.get_object_status, h]
  · intro h
    simp [MulticloudGit.import_notebook, h]

/-- A world whose get-status endpoint resolves `/nb` to a notebook while
the permissions GET fails. -/
def statusOkWorld : World :=
  { allFailWorld with
      statusResp := fun _ _ _ => .success (some (.jobj [("object_id", .jnum 7),
        ("object_type", .jstr "NOTEBOOK")])) }

theorem C3_witness :
    (UserCreation.get_users allFailWorld "u" "t").2 = .ok (.jarr []) ∧
    (UserCreation.create_user allFailWorld "u" "t"
      (.jobj [("userName", .jstr "a@b.c")])).2 = .ok false ∧
    (UserCreation.list_notebooks allFailWorld "u" "t" 1 "/").2 = .ok ([], []) ∧
    (UserCreation.export_notebook allFailWorld "u" "t" "/p").2 = .ok none ∧
    (UserCreation.create_directory allFailWorld "u" "t" "/d").2 = .ok () ∧
    (UserCreation.import_notebook allFailWorld "u" "t" "/p" "c").2 = .ok false ∧
    (MulticloudGit.fetch_notebook_from_github allFailWorld "o" "r" "p.py" "tk").2 =
      .ok none ∧
    (MulticloudGit.get_notebook_id allFailWorld "u" "t" "/p").2 = .ok .jnull ∧
    (MulticloudGit.get_object_status allFailWorld "u" "t" "/p").2 = none ∧
    (MulticloudGit.get_permissions allFailWorld "u" "t" "/p").2 = .ok none ∧
    (MulticloudGit.get_permissions statusOkWorld "u" "t" "/p").2 = .ok (some []) ∧
    (MulticloudGit.grant_permissions allFailWorld "u" "t" "/p" (.jstr "e@x.y")
      (.jstr "CAN_RUN") none).2 = .ok false ∧
    (MulticloudGit.import_notebook allFailWorld "u" "t" "c" "nb.py" "/d").2 = none := by
  refine ⟨?_, ?_, ?_, ?_, ?_, ?_, ?_, ?_, ?_, ?_, ?_, ?_, ?_⟩
  · exact (C3_sentinels allFailWorld "u" "t" "/p" "o" "r" "p.py" "tk" "nb.py" "/d" "c"
      [] .jnull (.jstr "e@x.y") (.jstr "CAN_RUN") (.jnum 7) none 0).1 (Or.inl rfl)
  · exact (C3_sentinels allFailWorld "u" "t" "/p" "o" "r" "p.py" "tk" "nb.py" "/d" "c"
      [("userName", .jstr "a@b.c")] (.jstr "a@b.c") (.jstr "e@x.y") (.jstr "CAN_RUN")
      (.jnum 7) none 0).2.1 rfl rfl
  · exact (C3_sentinels allFailWorld "u" "t" "/" "o" "r" "p.py" "tk" "nb.py" "/d" "c"
      [] .jnull (.jstr "e@x.y") (.jstr "CAN_RUN") (.jnum 7) none 0).2.2.1 (Or.inl rfl)
  · exact (C3_sentinels allFailWorld "u" "t" "/p" "o" "r" "p.py" "tk" "nb.py" "/d" "c"
      [] .jnull (.jstr "e@x.y") (.jstr "CAN_RUN") (.jnum 7) none 0).2.2.2.1 (Or.inl rfl)
  · exact (C3_sentinels allFailWorld "u" "t" "/d" "o" "r" "p.py" "tk" "nb.py" "/d" "c"
      [] .jnull (.jstr "e@x.y") (.jstr "CAN_RUN") (.jnum 7) none 0).2.2.2.2.1
  · exact (C3_sentinels allFailWorld "u" "t" "/p" "o" "r" "p.py" "tk" "nb.py" "/d" "c"
      [] .jnull (.jstr "e@x.y") (.jstr "CAN_RUN") (.jnum 7) none 0).2.2.2.2.2.1 rfl
  · exact (C3_sentinels allFailWorld "u" "t" "/p" "o" "r" "p.py" "tk" "nb.py" "/d" "c"
      [] .jnull (.jstr "e@x.y") (.jstr "CAN_RUN") (.jnum 7) none 0).2.2.2.2.2.2.1
      (Or.inl rfl)
  · exact (C3_sentinels allFailWorld "u" "t" "/p" "o" "r" "p.py" "tk" "nb.py" "/d" "c"
      [] .jnull (.jstr "e@x.y") (.jstr "CAN_RUN") (.jnum 7) none 0).2.2.2.2.2.2.2.1
      (Or.inl rfl)
  · exact (C3_sentinels allFailWorld "u" "t" "/p" "o" "r" "p.py" "tk" "nb.py" "/d" "c"
      [] .jnull (.jstr "e@x.y") (.jstr "CAN_RUN") (.jnum 7) none 0).2.2.2.2.2.2.2.2.1
      (Or.inl rfl)
  · exact (C3_sentinels allFailWorld "u" "t" "/p" "o" "r" "p.py" "tk" "nb.py" "/d" "c"
      [] .jnull (.jstr "e@x.y") (.jstr "CAN_RUN") (.jnum 7) none 0).2.2.2.2.2.2.2.2.2.1
      rfl
  · exact (C3_sentinels statusOkWorld "u" "t" "/p" "o" "r" "p.py" "tk" "nb.py" "/d" "c"
      [] .jnull (.jstr "e@x.y") (.jstr "CAN_RUN") (.jnum 7) none
      0).2.2.2.2.2.2.2.2.2.2.1 rfl rfl
  · exact (C3_sentinels allFailWorld "u" "t" "/p" "o" "r" "p.py" "tk" "nb.py" "/d" "c"
      [] .jnull (.jstr "e@x.y") (.jstr "CAN_RUN") (.jnum 7) none
      0).2.2.2.2.2.2.2.2.2.2.2.1 rfl
  · exact (C3_sentinels allFailWorld "u" "t" "/p" "o" "r" "p.py" "tk" "nb.py" "/d" "c"
      [] .jnull (.jstr "e@x.y") (.jstr "CAN_RUN") (.jnum 7) none
      0).2.2.2.2.2.2.2.2.2.2.2.2 rfl

/-- A proper prefix is lexicographically smaller (character lists). -/
theorem lex_lt_of_proper_prefix (l1 : List Char) :
    ∀ l2, l1 <+: l2 → l1 ≠ l2 → List.Lex (· < ·) l1 l2 := by
  induction l1 with
  | nil =>
      intro l2 hp hne
      cases l2 with
      | nil => exact absurd rfl hne
      | cons b l2 => exact List.Lex.nil
  | cons a l1 ih =>
      intro l2 hp hne
      obtain ⟨t2, ht⟩ := hp
      subst ht
      rw [List.cons_append]
      apply List.Lex.cons
      apply ih (l1 ++ t2) ⟨t2, rfl⟩
      intro hh
      apply hne
      rw [List.cons_append, ← hh]

/-- A proper prefix is lexicographically smaller (strings, with the
code-point order Python's `sorted` uses). -/
theorem string_lt_of_proper_prefix (d1 d2 : String)
    (hp : d1.data <+: d2.data) (hne : d1 ≠ d2) : d1 < d2 := by
  have hlex : List.Lex (· < ·) d1.data d2.data :=
    lex_lt_of_proper_prefix d1.data d2.data hp (fun h => hne (String.toList_inj.mp h))
  exact String.lt_iff_toList_lt.mpr hlex

/-- In a `≤`-sorted list, two members with `a < b` occur in that order
(as the sublist `[a, b]`). -/
theorem pair_sublist_of_sorted : ∀ (l : List String) (a b : String),
    l.Sorted (· ≤ ·) → a ∈ l → b ∈ l → a < b → [a, b].Sublist l := by
  intro l
  induction l with
  | nil =>
      intro a b _ ha _ _
      simp at ha
  | cons x tl ih =>
      intro a b hs ha hb hab
      rcases List.mem_cons.mp ha with rfl | ha2
      · have hbtl : b ∈ tl := by
          rcases List.mem_cons.mp hb with rfl | h2
          · exact absurd hab (lt_irrefl _)
          · exact h2
        exact List.cons_sublist_cons.mpr (List.singleton_sublist.mpr hbtl)
      · rcases List.mem_cons.mp hb with rfl | hb2
        · have hle := (List.sorted_cons.mp hs).1 a ha2
          exact absurd (lt_of_lt_of_le hab hle) (lt_irrefl _)
        · exact List.Sublist.cons _ (ih a b (List.sorted_cons.mp hs).2 ha2 hb2 hab)

/-- C1.  In the bulk migration, the workspace-structure writes the target
receives are exactly: one directory creation per discovered directory, in
sorted lexicographic order (hence parents before their proper
descendants), followed by one import per truthily-exported notebook, in
discovery order. -/
theorem C1_directories_then_notebooks (w : World) (e : UserCreation.Env) (fuel : Nat)
    (s t : String) (sc tc : WsConfig) (usersV : JVal) (users : List JVal)
    (nbs dirs : List String)
    (h1 : UserCreation.get_workspace_config e s = some sc)
    (h2 : UserCreation.get_workspace_config e t = some tc)
    (h3 : (UserCreation.get_users w (pyStr sc.url) (pyStr sc.token)).2 = .ok usersV)
    (h4 : iterList usersV = .ok users)
    (h5 : (UserCreation.userLoop w (pyStr tc.url) (pyStr tc.token) users).2 = .ok ())
    (h6 : (UserCreation.list_notebooks w (pyStr sc.url) (pyStr sc.token) fuel "/").2 =
      .ok (nbs, dirs))
    (h7 : ∀ p ∈ nbs, ∃ res,
      (UserCreation.export_notebook w (pyStr sc.url) (pyStr sc.token) p).2 = .ok res) :
    ((UserCreation.transfer_users_and_notebooks w e fuel s t).1).filter isDirOrImport =
      (List.insertionSort (· ≤ ·) dirs).map (Event.postMkdir (pyStr tc.url)) ++
      (nbs.filter (UserCreation.exportTruthy w (pyStr sc.url) (pyStr sc.token))).map
        (fun p => Event.postImport (pyStr tc.url) p
          (encodeContent (UserCreation.exportedText w (pyStr sc.url) (pyStr sc.token) p))) ∧
    (List.insertionSort (· ≤ ·) dirs).Sorted (· ≤ ·) ∧
    (∀ d1 d2, d1 ∈ dirs → d2 ∈ dirs → d1.data <+: d2.data → d1 ≠ d2 →
      ([d1, d2]).Sublist (List.insertionSort (· ≤ ·) dirs)) := by
  refine ⟨UserCreation.transfer_filter_write w e fuel s t sc tc usersV users nbs dirs
    h1 h2 h3 h4 h5 h6 h7, List.sorted_insertionSort _ _, ?_⟩
  intro d1 d2 hd1 hd2 hp hne
  have hlt := string_lt_of_proper_prefix d1 d2 hp hne
  have hm1 : d1 ∈ List.insertionSort (· ≤ ·) dirs :=
    ((List.perm_insertionSort (· ≤ ·) dirs).mem_iff).mpr hd1
  have hm2 : d2 ∈ List.insertionSort (· ≤ ·) dirs :=
    ((List.perm_insertionSort (· ≤ ·) dirs).mem_iff).mpr hd2
  exact pair_sublist_of_sorted _ d1 d2 (List.sorted_insertionSort _ _) hm1 hm2 hlt

/-- C5.  In the bulk migration, an export failure skips only that
notebook: every discovered notebook is still exported, the imports are
exactly the truthily-exported notebooks in discovery order, and every
notebook other than the failing one whose export is truthy is imported —
regardless of what the import endpoint answers (the import outcome is not
inspected, so an import failure does not abort the loop either). -/
theorem C5_skip_on_failure (w : World) (e : UserCreation.Env) (fuel : Nat)
    (s t : String) (sc tc : WsConfig) (usersV : JVal) (users : List JVal)
    (nbs dirs : List String) (x : String)
    (h1 : UserCreation.get_workspace_config e s = some sc)
    (h2 : UserCreation.get_workspace_config e t = some tc)
    (h3 : (UserCreation.get_users w (pyStr sc.url) (pyStr sc.token)).2 = .ok usersV)
    (h4 : iterList usersV = .ok users)
    (h5 : (UserCreation.userLoop w (pyStr tc.url) (pyStr tc.token) users).2 = .ok ())
    (h6 : (UserCreation.list_notebooks w (pyStr sc.url) (pyStr sc.token) fuel "/").2 =
      .ok (nbs, dirs))
    (h7 : ∀ p ∈ nbs, ∃ res,
      (UserCreation.export_notebook w (pyStr sc.url) (pyStr sc.token) p).2 = .ok res)
    (hx : x ∈ nbs)
    (hxf : UserCreation.exportTruthy w (pyStr sc.url) (pyStr sc.token) x = false) :
    ((UserCreation.transfer_users_and_notebooks w e fuel s t).1).filter isExportEv =
      nbs.map (Event.getExport (pyStr sc.url)) ∧
    ((UserCreation.transfer_users_and_notebooks w e fuel s t).1).filter isImportEv =
      (nbs.filter (UserCreation.exportTruthy w (pyStr sc.url) (pyStr sc.token))).map
        (fun p => Event.postImport (pyStr tc.url) p
          (encodeContent (UserCreation.exportedText w (pyStr sc.url) (pyStr sc.token) p))) ∧
    (∀ q ∈ nbs, UserCreation.exportTruthy w (pyStr sc.url) (pyStr sc.token) q = true →
      Event.postImport (pyStr tc.url) q
        (encodeContent (UserCreation.exportedText w (pyStr sc.url) (pyStr sc.token) q)) ∈
        (UserCreation.transfer_users_and_notebooks w e fuel s t).1) ∧
    (∀ enc, Event.postImport (pyStr tc.url) x enc ∉
      (UserCreation.transfer_users_and_notebooks w e fuel s t).1) := by
  have hexp := UserCreation.transfer_filter_export w e fuel s t sc tc usersV users nbs dirs
    h1 h2 h3 h4 h5 h6 h7
  have himp := UserCreation.transfer_filter_import w e fuel s t sc tc usersV users nbs dirs
    h1 h2 h3 h4 h5 h6 h7
  refine ⟨hexp, himp, ?_, ?_⟩
  · intro q hq htr
    apply List.mem_of_mem_filter (p := isImportEv)
    rw [himp]
    exact List.mem_map_of_mem _ (List.mem_filter.mpr ⟨hq, htr⟩)
  · intro enc hmem
    have hmem2 : Event.postImport (pyStr tc.url) x enc ∈
        ((UserCreation.transfer_users_and_notebooks w e fuel s t).1).filter isImportEv :=
      List.mem_filter.mpr ⟨hmem, rfl⟩
    rw [himp] at hmem2
    obtain ⟨q, hqmem, hqeq⟩ := List.mem_map.mp hmem2
    have hqx : q = x := by
      have := congrArg (fun ev => match ev with
        | Event.postImport _ pth _ => pth
        | _ => "") hqeq
      simpa using this
    subst hqx
    have := (List.mem_filter.mp hqmem).2
    rw [hxf] at this
    cases this

theorem assocGet_erase_id : ∀ fs : List (String × JVal),
    assocGet (fs.filter (fun kv => kv.1 ≠ "id")) "id" = none := by
  intro fs
  induction fs with
  | nil => rfl
  | cons kv fs ih =>
      obtain ⟨k1, v1⟩ := kv
      simp only [decide_not] at ih
      by_cases h : k1 = "id"
      · simp [List.filter_cons, h, ih]
      · simp [List.filter_cons, h, assocGet, ih]

theorem assocGet_erase_id_other : ∀ (fs : List (String × JVal)) (k : String), k ≠ "id" →
    assocGet (fs.filter (fun kv => kv.1 ≠ "id")) k = assocGet fs k := by
  intro fs k hk
  induction fs with
  | nil => rfl
  | cons kv fs ih =>
      obtain ⟨k1, v1⟩ := kv
      simp only [decide_not] at ih
      by_cases h : k1 = "id"
      · subst h
        have hne : ¬("id" = k) := fun hh => hk hh.symm
        simp [List.filter_cons, assocGet, hne, ih]
      · by_cases h2 : k1 = k
        · subst h2
          simp [List.filter_cons, h, assocGet]
        · simp [List.filter_cons, h, h2, assocGet, ih]

/-- C6.  Every user-creation request the target receives carries the
fetched record with the server-assigned `id` field removed, in fetch
order; the stripped payload has no `id` key and answers every other key
exactly as the original record. -/
theorem C6_user_id_stripped (w : World) (e : UserCreation.Env) (fuel : Nat)
    (s t : String) (sc tc : WsConfig) (usersV : JVal) (users : List JVal)
    (h1 : UserCreation.get_workspace_config e s = some sc)
    (h2 : UserCreation.get_workspace_config e t = some tc)
    (h3 : (UserCreation.get_users w (pyStr sc.url) (pyStr sc.token)).2 = .ok usersV)
    (h4 : iterList usersV = .ok users)
    (husers : ∀ user ∈ users, userOk user) :
    ((UserCreation.transfer_users_and_notebooks w e fuel s t).1).filter isPostUserEv =
      users.map (fun user => Event.postUser (pyStr tc.url) (strippedUser user)) ∧
    (∀ fs : List (String × JVal),
      jGetKey (strippedUser (.jobj fs)) "id" = .error .keyError) ∧
    (∀ (fs : List (String × JVal)) (k : String), k ≠ "id" →
      jGetKey (strippedUser (.jobj fs)) k = jGetKey (.jobj fs) k) := by
  refine ⟨UserCreation.transfer_filter_postUser w e fuel s t sc tc usersV users
    h1 h2 h3 h4 husers, ?_, ?_⟩
  · intro fs
    show (match assocGet (fs.filter (fun kv => kv.1 ≠ "id")) "id" with
      | some v => Except.ok v
      | none => Except.error PyErr.keyError) = .error .keyError
    rw [assocGet_erase_id fs]
  · intro fs k hk
    show (match assocGet (fs.filter (fun kv => kv.1 ≠ "id")) k with
      | some v => Except.ok v
      | none => Except.error PyErr.keyError) =
      (match assocGet fs k with
      | some v => Except.ok v
      | none => Except.error PyErr.keyError)
    rw [assocGet_erase_id_other fs k hk]

/-- C10.  A 2xx export response whose content field is empty or absent
makes `export_notebook` return the empty string — a successful export —
which the orchestrator's falsy check treats as a failure: that notebook's
export request appears in the trace, but no import of its path is ever
sent to the target. -/
theorem C10_empty_content_never_imported (w : World) (e : UserCreation.Env) (fuel : Nat)
    (s t : String) (sc tc : WsConfig) (usersV : JVal) (users : List JVal)
    (nbs dirs : List String) (p : String) (fsx : List (String × JVal))
    (h1 : UserCreation.get_workspace_config e s = some sc)
    (h2 : UserCreation.get_workspace_config e t = some tc)
    (h3 : (UserCreation.get_users w (pyStr sc.url) (pyStr sc.token)).2 = .ok usersV)
    (h4 : iterList usersV = .ok users)
    (h5 : (UserCreation.userLoop w (pyStr tc.url) (pyStr tc.token) users).2 = .ok ())
    (h6 : (UserCreation.list_notebooks w (pyStr sc.url) (pyStr sc.token) fuel "/").2 =
      .ok (nbs, dirs))
    (h7 : ∀ q ∈ nbs, ∃ res,
      (UserCreation.export_notebook w (pyStr sc.url) (pyStr sc.token) q).2 = .ok res)
    (hp : p ∈ nbs)
    (hresp : w.exportResp (pyStr sc.url) (pyStr sc.token) p = .success (some (.jobj fsx)))
    (hcont : assocGet fsx "content" = none ∨ assocGet fsx "content" = some (.jstr "")) :
    (UserCreation.export_notebook w (pyStr sc.url) (pyStr sc.token) p).2 = .ok (some "") ∧
    Event.getExport (pyStr sc.url) p ∈
      (UserCreation.transfer_users_and_notebooks w e fuel s t).1 ∧
    (∀ enc, Event.postImport (pyStr tc.url) p enc ∉
      (UserCreation.transfer_users_and_notebooks w e fuel s t).1) := by
  have hexport : (UserCreation.export_notebook w (pyStr sc.url) (pyStr sc.token) p).2 =
      .ok (some "") := by
    rcases hcont with hc | hc
    · simp only [UserCreation.export_notebook, hresp, jGetD, hc, Option.getD_none]
      rfl
    · simp only [UserCreation.export_notebook, hresp, jGetD, hc, Option.getD_some]
      rfl
  have htr : UserCreation.exportTruthy w (pyStr sc.url) (pyStr sc.token) p = false := by
    rw [UserCreation.exportTruthy, hexport]
    simp
  have hexp := UserCreation.transfer_filter_export w e fuel s t sc tc usersV users nbs dirs
    h1 h2 h3 h4 h5 h6 h7
  have himp := UserCreation.transfer_filter_import w e fuel s t sc tc usersV users nbs dirs
    h1 h2 h3 h4 h5 h6 h7
  refine ⟨hexport, ?_, ?_⟩
  · apply List.mem_of_mem_filter (p := isExportEv)
    rw [hexp]
    exact List.mem_map_of_mem _ hp
  · intro enc hmem
    have hmem2 : Event.postImport (pyStr tc.url) p enc ∈
        ((UserCreation.transfer_users_and_notebooks w e fuel s t).1).filter isImportEv :=
      List.mem_filter.mpr ⟨hmem, rfl⟩
    rw [himp] at hmem2
    obtain ⟨q, hqmem, hqeq⟩ := List.mem_map.mp hmem2
    have hqx : q = p := by
      have := congrArg (fun ev => match ev with
        | Event.postImport _ pth _ => pth
        | _ => "") hqeq
      simpa using this
    subst hqx
    have := (List.mem_filter.mp hqmem).2
    rw [htr] at this
    cases this

/-- A populated environment for the transfer module. -/
def goodEnvU : UserCreation.Env :=
  { STAGING_WORKSPACE_URL := some "SU", STAGING_ACCESS_TOKEN := some "STK",
    PREPROD_WORKSPACE_URL := some "TU", PREPROD_ACCESS_TOKEN := some "TTK" }

/-- A notebook entry of a workspace listing. -/
def nbObj (p : String) : JVal :=
  .jobj [("object_type", .jstr "NOTEBOOK"), ("path", .jstr p)]

/-- A directory entry of a workspace listing. -/
def dirObj (p : String) : JVal :=
  .jobj [("object_type", .jstr "DIRECTORY"), ("path", .jstr p)]

/-- The scenario world of C1: the source root lists `/n1`, `/n2` and the
directory `/d1` (itself empty), every export succeeds. -/
def wC1 : World :=
  { allFailWorld with
      listResp := fun _ _ path =>
        if path = "/" then
          .success (some (.jobj [("objects",
            .jarr [nbObj "/n1", nbObj "/n2", dirObj "/d1"])]))
        else .failure,
      exportResp := fun _ _ _ =>
        .success (some (.jobj [("content", .jstr (encodeContent "x = 1"))])),
      importResp := fun _ _ _ _ => .success none,
      mkdirResp := fun _ _ _ => .success none }

theorem C1_witness :
    ((UserCreation.transfer_users_and_notebooks wC1 goodEnvU 2 "STAGING" "PREPROD").1).filter
      isDirOrImport =
      [Event.postMkdir "TU" "/d1",
       Event.postImport "TU" "/n1" (encodeContent "x = 1"),
       Event.postImport "TU" "/n2" (encodeContent "x = 1")] := by
  have h := C1_directories_then_notebooks wC1 goodEnvU 2 "STAGING" "PREPROD"
    ⟨some "SU", some "STK"⟩ ⟨some "TU", some "TTK"⟩ (.jarr []) [] ["/n1", "/n2"] ["/d1"]
    rfl rfl rfl rfl rfl rfl (fun p _ => ⟨some "x = 1", rfl⟩)
  rw [h.1]
  rfl

/-- The C5 world: three discovered notebooks, the export of `/x` fails at
transport level, the others succeed. -/
def wC5 : World :=
  { allFailWorld with
      listResp := fun _ _ path =>
        if path = "/" then
          .success (some (.jobj [("objects",
            .jarr [nbObj "/n1", nbObj "/x", nbObj "/n2"])]))
        else .failure,
      exportResp := fun _ _ path =>
        if path = "/x" then .failure
        else .success (some (.jobj [("content", .jstr (encodeContent "x = 1"))])),
      importResp := fun _ _ _ _ => .success none,
      mkdirResp := fun _ _ _ => .success none }

theorem C5_witness :
    ((UserCreation.transfer_users_and_notebooks wC5 goodEnvU 2 "STAGING" "PREPROD").1).filter
      isExportEv =
      [Event.getExport "SU" "/n1", Event.getExport "SU" "/x", Event.getExport "SU" "/n2"] ∧
    ((UserCreation.transfer_users_and_notebooks wC5 goodEnvU 2 "STAGING" "PREPROD").1).filter
      isImportEv =
      [Event.postImport "TU" "/n1" (encodeContent "x = 1"),
       Event.postImport "TU" "/n2" (encodeContent "x = 1")] := by
  have h := C5_skip_on_failure wC5 goodEnvU 2 "STAGING" "PREPROD"
    ⟨some "SU", some "STK"⟩ ⟨some "TU", some "TTK"⟩ (.jarr []) [] ["/n1", "/x", "/n2"] []
    "/x" rfl rfl rfl rfl rfl rfl
    (fun p _ => by
      by_cases hpx : p = "/x"
      · subst hpx
        exact ⟨none, rfl⟩
      · refine ⟨some "x = 1", ?_⟩
        have hr : wC5.exportResp (pyStr (some "SU")) (pyStr (some "STK")) p =
            .success (some (.jobj [("content", .jstr (encodeContent "x = 1"))])) :=
          if_neg hpx
        simp [UserCreation.export_notebook, hr, jGetD, assocGet, decodeContent_encodeContent])
    (by simp) rfl
  exact ⟨by rw [h.1]; rfl, by rw [h.2.1]; rfl⟩

/-- The C6 world: the source lists one user record carrying an `id` and a
`userName`; the target's creation endpoint fails (the payload is sent
regardless). -/
def wC6 : World :=
  { allFailWorld with
      usersResp := fun _ _ => .success (some (.jobj [("Resources",
        .jarr [.jobj [("id", .jstr "u-001"), ("userName", .jstr "sam")]])])) }

theorem C6_witness :
    ((UserCreation.transfer_users_and_notebooks wC6 goodEnvU 1 "STAGING" "PREPROD").1).filter
      isPostUserEv = [Event.postUser "TU" (.jobj [("userName", .jstr "sam")])] ∧
    jGetKey (strippedUser (.jobj [("id", .jstr "u-001"), ("userName", .jstr "sam")]))
      "id" = .error .keyError ∧
    jGetKey (strippedUser (.jobj [("id", .jstr "u-001"), ("userName", .jstr "sam")]))
      "userName" = .ok (.jstr "sam") := by
  have h := C6_user_id_stripped wC6 goodEnvU 1 "STAGING" "PREPROD"
    ⟨some "SU", some "STK"⟩ ⟨some "TU", some "TTK"⟩
    (.jarr [.jobj [("id", .jstr "u-001"), ("userName", .jstr "sam")]])
    [.jobj [("id", .jstr "u-001"), ("userName", .jstr "sam")]]
    rfl rfl rfl rfl
    (by
      intro u hu
      simp only [List.mem_singleton] at hu
      subst hu
      exact ⟨_, rfl, .jstr "sam", rfl⟩)
  refine ⟨by rw [h.1]; rfl, h.2.1 _, ?_⟩
  rw [h.2.2 [("id", .jstr "u-001"), ("userName", .jstr "sam")] "userName" (by decide)]
  rfl

/-- The C10 world: one discovered notebook whose 2xx export response has
no content field. -/
def wC10 : World :=
  { allFailWorld with
      listResp := fun _ _ path =>
        if path = "/" then
          .success (some (.jobj [("objects", .jarr [nbObj "/empty"])]))
        else .failure,
      exportResp := fun _ _ _ => .success (some (.jobj [])),
      importResp := fun _ _ _ _ => .success none,
      mkdirResp := fun _ _ _ => .success none }

theorem C10_witness :
    (UserCreation.export_notebook wC10 "SU" "STK" "/empty").2 = .ok (some "") ∧
    Event.getExport "SU" "/empty" ∈
      (UserCreation.transfer_users_and_notebooks wC10 goodEnvU 2 "STAGING" "PREPROD").1 ∧
    Event.postImport "TU" "/empty" (encodeContent "") ∉
      (UserCreation.transfer_users_and_notebooks wC10 goodEnvU 2 "STAGING" "PREPROD").1 := by
  have h := C10_empty_content_never_imported wC10 goodEnvU 2 "STAGING" "PREPROD"
    ⟨some "SU", some "STK"⟩ ⟨some "TU", some "TTK"⟩ (.jarr []) [] ["/empty"] [] "/empty" []
    rfl rfl rfl rfl rfl rfl (fun q _ => ⟨some "", rfl⟩) (by simp) rfl (Or.inl rfl)
  exact ⟨h.1, h.2.1, h.2.2 (encodeContent "")⟩

/-- C9.  Whenever `grant_permissions` reaches its PATCH (the path's status
resolves to a notebook), the single request body carries exactly two
access-control entries when a non-empty `cluster_id` is supplied — the
requested level plus a `CAN_ATTACH_TO` entry scoped to that cluster — and
exactly the one requested entry when no `cluster_id` is supplied. -/
theorem C9_grant_permissions_body (w : World) (u t p : String) (email lvl oid : JVal)
    (fs : List (String × JVal))
    (hst : w.statusResp u t p = .success (some (.jobj fs)))
    (hid : assocGet fs "object_id" = some oid)
    (hty : assocGet fs "object_type" = some (.jstr "NOTEBOOK")) :
    (∀ c : String, c ≠ "" →
      (MulticloudGit.grant_permissions w u t p email lvl (some c)).1 =
        [Event.getStatus u p,
         Event.patchPerms u "notebooks" oid (.jobj [("access_control_list", .jarr
           [.jobj [("user_name", email), ("permission_level", lvl)],
            .jobj [("user_name", email), ("permission_level", .jstr "CAN_ATTACH_TO"),
                   ("cluster_id", .jstr c)]])])]) ∧
    ((MulticloudGit.grant_permissions w u t p email lvl none).1 =
       [Event.getStatus u p,
        Event.patchPerms u "notebooks" oid (.jobj [("access_control_list", .jarr
          [.jobj [("user_name", email), ("permission_level", lvl)]])])]) := by
  have htruthy : pyTruthy (.jobj fs) = true := by
    cases fs with
    | nil => simp [assocGet] at hid
    | cons a l => simp [pyTruthy]
  constructor
  · intro c hc
    have hcb : (c != "") = true := by simp [hc]
    simp only [MulticloudGit.grant_permissions, MulticloudGit.get_object_status, hst,
      htruthy, jGetD, hid, hty, Option.getD_some, JVal.isStr, beq_self_eq_true,
      Bool.true_or, optStrTruthy, hcb, Bool.true_eq_false, if_false, if_true,
      List.singleton_append]
    cases w.permsPatchResp u t "notebooks" oid (.jobj [("access_control_list", .jarr
      [.jobj [("user_name", email), ("permission_level", lvl)],
       .jobj [("user_name", email), ("permission_level", .jstr "CAN_ATTACH_TO"),
              ("cluster_id", .jstr c)]])]) <;> rfl
  · simp only [MulticloudGit.grant_permissions, MulticloudGit.get_object_status, hst,
      htruthy, jGetD, hid, hty, Option.getD_some, JVal.isStr, beq_self_eq_true,
      Bool.true_or, optStrTruthy, Bool.true_eq_false, if_false, if_true, Bool.false_eq_true,
      List.singleton_append, List.append_nil]
    cases w.permsPatchResp u t "notebooks" oid (.jobj [("access_control_list", .jarr
      [.jobj [("user_name", email), ("permission_level", lvl)]])]) <;> rfl

theorem C9_witness :
    (MulticloudGit.grant_permissions statusOkWorld "U" "T" "/nb" (.jstr "e@x.y")
      (.jstr "CAN_RUN") (some "clu-1")).1 =
      [Event.getStatus "U" "/nb",
       Event.patchPerms "U" "notebooks" (.jnum 7) (.jobj [("access_control_list", .jarr
         [.jobj [("user_name", .jstr "e@x.y"), ("permission_level", .jstr "CAN_RUN")],
          .jobj [("user_name", .jstr "e@x.y"), ("permission_level", .jstr "CAN_ATTACH_TO"),
                 ("cluster_id", .jstr "clu-1")]])])] ∧
    (MulticloudGit.grant_permissions statusOkWorld "U" "T" "/nb" (.jstr "e@x.y")
      (.jstr "CAN_RUN") none).1 =
      [Event.getStatus "U" "/nb",
       Event.patchPerms "U" "notebooks" (.jnum 7) (.jobj [("access_control_list", .jarr
         [.jobj [("user_name", .jstr "e@x.y"), ("permission_level", .jstr "CAN_RUN")]])])] :=
  ⟨(C9_grant_permissions_body statusOkWorld "U" "T" "/nb" (.jstr "e@x.y") (.jstr "CAN_RUN")
      (.jnum 7) [("object_id", .jnum 7), ("object_type", .jstr "NOTEBOOK")]
      rfl rfl rfl).1 "clu-1" (by decide),
   (C9_grant_permissions_body statusOkWorld "U" "T" "/nb" (.jstr "e@x.y") (.jstr "CAN_RUN")
      (.jnum 7) [("object_id", .jnum 7), ("object_type", .jstr "NOTEBOOK")]
      rfl rfl rfl).2⟩

/-- C2.  When the permission fetch for the notebook imported into the
source workspace yields no entries (the `None` failure sentinel or the
empty dict), the permission set the sync applies — to the source first and
then the target — is exactly the hardcoded two-principal CAN_MANAGE
default, `default_permissions`. -/
theorem C2_permission_fallback (w : World) (e : MulticloudGit.Env)
    (source_cloud target_cloud : String) (git_url cluster_id : Option String)
    (sc tc : WsConfig) (content spath tpath : String) (sid tid : JVal)
    (pr : Option (List (JVal × JVal)))
    (h1 : MulticloudGit.get_workspace_config e source_cloud = some sc)
    (h2 : MulticloudGit.get_workspace_config e target_cloud = some tc)
    (h3 : (MulticloudGit.fetch_notebook_from_github w (pyStr e.GITHUB_REPO_OWNER)
      (pyStr e.GITHUB_REPO_NAME) "demon_slayer_notebook.py" (pyStr e.GITHUB_TOKEN)).2 =
      .ok (some content))
    (hc : content ≠ "")
    (h4 : (MulticloudGit.import_notebook w (pyStr sc.url) (pyStr sc.token) content
      "demon_slayer_notebook.py" "/Workspace/Users/adhyan.mishra@digivatelabs.com").2 =
      some spath)
    (hsp : spath ≠ "")
    (h5 : (MulticloudGit.import_notebook w (pyStr tc.url) (pyStr tc.token) content
      "demon_slayer_notebook.py" "/Workspace/Users/adhyan.mishra@digivatelabs.com").2 =
      some tpath)
    (htp : tpath ≠ "")
    (h6 : (MulticloudGit.get_notebook_id w (pyStr sc.url) (pyStr sc.token) spath).2 = .ok sid)
    (hsid : pyTruthy sid = true)
    (h7 : (MulticloudGit.get_permissions w (pyStr sc.url) (pyStr sc.token) spath).2 = .ok pr)
    (hpr : MulticloudGit.permsFalsy pr = true)
    (h8 : (MulticloudGit.get_notebook_id w (pyStr tc.url) (pyStr tc.token) tpath).2 = .ok tid)
    (htid : pyTruthy tid = true)
    (h9 : (MulticloudGit.applyPermsLoop w (pyStr sc.url) (pyStr sc.token) spath cluster_id
      MulticloudGit.default_permissions).2 = .ok ()) :
    (MulticloudGit.sync_notebooks_and_permissions w e source_cloud target_cloud
        git_url cluster_id).1 =
      (MulticloudGit.fetch_notebook_from_github w (pyStr e.GITHUB_REPO_OWNER)
        (pyStr e.GITHUB_REPO_NAME) "demon_slayer_notebook.py" (pyStr e.GITHUB_TOKEN)).1 ++
      (MulticloudGit.import_notebook w (pyStr sc.url) (pyStr sc.token) content
        "demon_slayer_notebook.py" "/Workspace/Users/adhyan.mishra@digivatelabs.com").1 ++
      (MulticloudGit.import_notebook w (pyStr tc.url) (pyStr tc.token) content
        "demon_slayer_notebook.py" "/Workspace/Users/adhyan.mishra@digivatelabs.com").1 ++
      (MulticloudGit.get_notebook_id w (pyStr sc.url) (pyStr sc.token) spath).1 ++
      (MulticloudGit.get_permissions w (pyStr sc.url) (pyStr sc.token) spath).1 ++
      (MulticloudGit.get_notebook_id w (pyStr tc.url) (pyStr tc.token) tpath).1 ++
      (MulticloudGit.applyPermsLoop w (pyStr sc.url) (pyStr sc.token) spath cluster_id
        MulticloudGit.default_permissions).1 ++
      (MulticloudGit.applyPermsLoop w (pyStr tc.url) (pyStr tc.token) tpath cluster_id
        MulticloudGit.default_permissions).1 := by
  simp only [MulticloudGit.sync_notebooks_and_permissions, h1, h2, h3, h4, h5, h6, h7, h8,
    hc, hsp, htp, hsid, htid, hpr, Bool.true_eq_false, if_false, if_true, ite_false,
    ite_true, reduceIte]
  simp only [h9]

/-- A fully-populated environment for the sync module. -/
def e2C2 : MulticloudGit.Env :=
  { AWS_WORKSPACE_URL := some "AU", AWS_ACCESS_TOKEN := some "ATK",
    AZURE_WORKSPACE_URL := some "ZU", AZURE_ACCESS_TOKEN := some "ZTK",
    GCP_WORKSPACE_URL := some "GU", GCP_ACCESS_TOKEN := some "GTK",
    GITHUB_TOKEN := some "ghtok", GITHUB_REPO_OWNER := some "owner",
    GITHUB_REPO_NAME := some "repo" }

/-- The C2 world: GitHub serves the notebook, imports succeed, the
get-status endpoint resolves it, and the permissions GET fails — so the
fetched permission set is the empty-dict sentinel. -/
def wC2 : World :=
  { allFailWorld with
      githubResp := fun _ _ _ _ =>
        .success (some (.jobj [("content", .jstr (encodeContent "x = 1"))])),
      importResp := fun _ _ _ _ => .success none,
      statusResp := fun _ _ _ => .success (some (.jobj [("object_id", .jnum 7),
        ("object_type", .jstr "NOTEBOOK")])) }

theorem C2_witness :
    (MulticloudGit.sync_notebooks_and_permissions wC2 e2C2 "AWS" "AZURE" none none).1 =
      (MulticloudGit.fetch_notebook_from_github wC2 (pyStr e2C2.GITHUB_REPO_OWNER)
        (pyStr e2C2.GITHUB_REPO_NAME) "demon_slayer_notebook.py"
        (pyStr e2C2.GITHUB_TOKEN)).1 ++
      (MulticloudGit.import_notebook wC2 (pyStr (some "AU")) (pyStr (some "ATK")) "x = 1"
        "demon_slayer_notebook.py" "/Workspace/Users/adhyan.mishra@digivatelabs.com").1 ++
      (MulticloudGit.import_notebook wC2 (pyStr (some "ZU")) (pyStr (some "ZTK")) "x = 1"
        "demon_slayer_notebook.py" "/Workspace/Users/adhyan.mishra@digivatelabs.com").1 ++
      (MulticloudGit.get_notebook_id wC2 (pyStr (some "AU")) (pyStr (some "ATK"))
        "/Workspace/Users/adhyan.mishra@digivatelabs.com/demon_slayer_notebook.py").1 ++
      (MulticloudGit.get_permissions wC2 (pyStr (some "AU")) (pyStr (some "ATK"))
        "/Workspace/Users/adhyan.mishra@digivatelabs.com/demon_slayer_notebook.py").1 ++
      (MulticloudGit.get_notebook_id wC2 (pyStr (some "ZU")) (pyStr (some "ZTK"))
        "/Workspace/Users/adhyan.mishra@digivatelabs.com/demon_slayer_notebook.py").1 ++
      (MulticloudGit.applyPermsLoop wC2 (pyStr (some "AU")) (pyStr (some "ATK"))
        "/Workspace/Users/adhyan.mishra@digivatelabs.com/demon_slayer_notebook.py" none
        MulticloudGit.default_permissions).1 ++
      (MulticloudGit.applyPermsLoop wC2 (pyStr (some "ZU")) (pyStr (some "ZTK"))
        "/Workspace/Users/adhyan.mishra@digivatelabs.com/demon_slayer_notebook.py" none
        MulticloudGit.default_permissions).1 :=
  C2_permission_fallback wC2 e2C2 "AWS" "AZURE" none none
    ⟨some "AU", some "ATK"⟩ ⟨some "ZU", some "ZTK"⟩ "x = 1"
    "/Workspace/Users/adhyan.mishra@digivatelabs.com/demon_slayer_notebook.py"
    "/Workspace/Users/adhyan.mishra@digivatelabs.com/demon_slayer_notebook.py"
    (.jnum 7) (.jnum 7) (some [])
    rfl rfl rfl (by decide) rfl (by decide) rfl (by decide) rfl rfl rfl rfl rfl rfl rfl
